import Mathlib

/-! # fastwego/wxopen : retrying client and component-token manager

Shallow embedding of `client.go`, `wxopen.go`, `server.go` and
`type/type_platform/type_platform.go`.

Conventions of the embedding
* Go `string` and `[]byte` values are Lean strings (a `nil` slice is the empty string).
* A Go function with results `(v, err)` returns the pair; `err = none` is Go's `nil`.
* Everything outside the package (the HTTP transport, the cache behind the
  `cachego.Cache` interface, the pluggable handlers) acts on an arbitrary world
  state `σ`; the embedding threads that state and records every call it makes in
  a list of `Event`s, oldest first.
* `encoding/json` is not re-implemented: a response carries, next to its raw body,
  the outcome of `json.Unmarshal` on that body (either the decoding error or the
  members that were present), and the embedding applies that outcome to the
  zero-valued target struct exactly as `Unmarshal` does.
* The other decoders and pure library functions (`json.Unmarshal` of the
  authorizer-token answer, `xml.Unmarshal`, `xml.Marshal`, `http.NewRequest`,
  the SHA-1 digest, and `util.AESDecryptMsg` and `util.AESEncryptMsg` of the
  `offiaccount` module) are parameters of the functions that call them, and so
  are the results of `time.Now` and `util.GetRandString`.
* Calls to `Logger.Printf` have no influence on the results and are left out.
* The embedding is sequential: `Lock` and `Unlock` of the two package-level
  mutexes are recorded as events, a deferred `Unlock` as the last event of the call.
-/

namespace Wxopen

/-! ## Errors -/

/-- Go `error` values seen by the package.  The two package-level sentinels are
compared by identity in the source, so they are constructors of their own;
`New` stands for a fresh `errors.New` / `fmt.Errorf` value and `Foreign` for an
error produced outside the package (transport, reader, decoder, cache, handler). -/
inductive Error where
  | componentAccessTokenExpire
  | systemBusy
  | New (msg : String)
  | Foreign (msg : String)
  deriving DecidableEq, Repr

/-- Package variable `ErrorComponentAccessTokenExpire`. -/
abbrev ErrorComponentAccessTokenExpire : Error := Error.componentAccessTokenExpire

/-- Package variable `ErrorSystemBusy`. -/
abbrev ErrorSystemBusy : Error := Error.systemBusy

/-- Message of a Go error, the result of its method `Error()`. -/
def Error.Message : Error → String
  | .componentAccessTokenExpire => "component_access_token expire"
  | .systemBusy => "system busy"
  | .New msg => msg
  | .Foreign msg => msg

/-- Package variable `WXServerUrl`. -/
def WXServerUrl : String := "https://api.weixin.qq.com"

/-- Package variable `UserAgent`. -/
def UserAgent : String := "fastwego/wxopen"

/-! ## net/url : query values -/

/-- One `&`-separated piece of a raw query: either a pair that unescapes to
`key` and `value`, or a piece that `url.ParseQuery` rejects. -/
inductive QuerySegment where
  | pair (key value : String)
  | malformed (raw : String)
  deriving DecidableEq, Repr

/-- Type `url.Values` (`map[string][]string`), kept as the list of its
`(key, value)` entries; the values of one key are in slice order. -/
abbrev Values := List (String × String)

/-- Map index `v[key]`: the values stored under `key`, in order. -/
def Values.lookup (v : Values) (key : String) : List String :=
  v.filterMap (fun p => if p.1 = key then some p.2 else none)

/-- Method `Values.Set`: replaces whatever is stored under `key` by the single `value`. -/
def Values.Set (v : Values) (key value : String) : Values :=
  v.filter (fun p => !decide (p.1 = key)) ++ [(key, value)]

/-- Insertion of one entry in front of the first entry whose key is not smaller. -/
def Values.insertByKey (p : String × String) : Values → Values
  | [] => [p]
  | q :: rest => if p.1 ≤ q.1 then p :: q :: rest else q :: Values.insertByKey p rest

/-- Entries ordered by key, entries of one key in their original order. -/
def Values.sortByKey : Values → Values
  | [] => []
  | p :: rest => Values.insertByKey p (Values.sortByKey rest)

/-- Method `Values.Encode`: the entries "sorted by key", every one a well-formed piece. -/
def Values.Encode (v : Values) : List QuerySegment :=
  (Values.sortByKey v).map (fun p => QuerySegment.pair p.1 p.2)

/-- Function `url.ParseQuery` as used by `URL.Query`: malformed pieces are dropped silently. -/
def parseQuery (raw : List QuerySegment) : Values :=
  raw.filterMap (fun seg =>
    match seg with
    | .pair k v => some (k, v)
    | .malformed _ => none)

/-- Type `url.URL`: everything before the query, and the raw query. -/
structure URL where
  Base : String
  RawQuery : List QuerySegment
  deriving DecidableEq, Repr

/-- Method `URL.Query`. -/
def URL.Query (u : URL) : Values := parseQuery u.RawQuery

/-! ## net/http : requests and responses -/

/-- Type `http.Request`: method, URL and header entries.  The payload reader is not modelled. -/
structure Request where
  Method : String
  URL : URL
  Header : List (String × String)
  deriving DecidableEq, Repr

/-- Method `Header.Add`. -/
def Request.HeaderAdd (req : Request) (key value : String) : Request :=
  { req with Header := req.Header ++ [(key, value)] }

/-- The anonymous struct `errorResponse` of `responseFilter`. -/
structure ErrorResponse where
  Errcode : Int
  Errmsg : String
  deriving DecidableEq, Repr

/-- Members of a decoded JSON body that `json.Unmarshal` stores into `errorResponse`:
`none` for a member that is absent (or `null`), which leaves the field untouched. -/
structure EnvelopeMembers where
  errcode : Option Int
  errmsg : Option String
  deriving DecidableEq, Repr

/-- Type `http.Response` as read by `responseFilter`: status, the bytes
`ioutil.ReadAll` delivers with its error, and what `json.Unmarshal` makes of them. -/
structure Response where
  StatusCode : Nat
  Status : String
  Body : String
  ReadErr : Option Error
  Decoded : Except Error EnvelopeMembers

/-- Call `json.Unmarshal(resp, &errorResponse)`: the error and the struct afterwards. -/
def jsonUnmarshalErrorResponse (response : Response) (target : ErrorResponse) :
    Option Error × ErrorResponse :=
  match response.Decoded with
  | .error e => (some e, target)
  | .ok m => (none, { Errcode := m.errcode.getD target.Errcode,
                      Errmsg := m.errmsg.getD target.Errmsg })

/-- Function `responseFilter` of `client.go`. -/
def responseFilter (response : Response) : String × Option Error :=
  if response.StatusCode ≠ 200 then
    ("", some (Error.New ("Status " ++ response.Status)))
  else
    let resp := response.Body
    match response.ReadErr with
    | some e => (resp, some e)
    | none =>
      match jsonUnmarshalErrorResponse response { Errcode := 0, Errmsg := "" } with
      | (some e, _) => (resp, some e)
      | (none, errorResponse) =>
        if errorResponse.Errcode = 42001 ∨ errorResponse.Errcode = 40001 then
          (resp, some ErrorComponentAccessTokenExpire)
        else if errorResponse.Errcode = -1 then
          (resp, some ErrorSystemBusy)
        else if errorResponse.Errcode ≠ 0 then
          (resp, some (Error.New resp))
        else
          (resp, none)

/-! ## The platform instance and its surroundings -/

/-- Type `PlatformConfig`. -/
structure PlatformConfig where
  AppId : String
  AppSecret : String
  Token : String
  AesKey : String
  deriving DecidableEq, Repr

/-- Interface `cachego.Cache` as far as the package calls it.  The lifetime of
`Save` is a `time.Duration`, a count of nanoseconds. -/
structure Cache (σ : Type) where
  Fetch : String → σ → (String × Option Error) × σ
  Save : String → String → Int → σ → Option Error × σ
  Delete : String → σ → Option Error × σ

/-- Type `Platform`: configuration, cache and the pluggable handlers, each
handler already applied to the platform it belongs to. -/
structure Platform (σ : Type) where
  Config : PlatformConfig
  Cache : Cache σ
  GetComponentAccessTokenHandler : σ → (String × Option Error) × σ
  NoticeComponentAccessTokenExpireHandler : σ → Option Error × σ
  GetComponentVerifyTicketHandler : σ → (String × Option Error) × σ

/-- The struct `Params` that `refreshComponentAccessToken` marshals as the POST payload. -/
structure Params where
  ComponentAppid : String
  ComponentAppsecret : String
  ComponentVerifyTicket : String
  deriving DecidableEq, Repr

/-- Members of the refresh answer that `json.Unmarshal` stores into `result`
(`errcode` and `errmsg` are decoded too but never read). -/
structure TokenMembers where
  component_access_token : Option String
  expires_in : Option Int
  deriving DecidableEq, Repr

/-- The `http.Response` of the refresh endpoint as read by `refreshComponentAccessToken`. -/
structure TokenResponse where
  StatusCode : Nat
  Status : String
  Body : String
  ReadErr : Option Error
  Decoded : Except Error TokenMembers

/-- The HTTP transport: `http.DefaultClient.Do` and `http.Post`. -/
structure Net (σ : Type) where
  Do : Request → σ → Except Error Response × σ
  Post : String → String → Params → σ → Except Error TokenResponse × σ

/-- The two package-level mutexes of `wxopen.go`. -/
inductive Mutex where
  | refreshComponentAccessTokenLock
  | noticeAuthorizerAccessTokenExpireLock
  deriving DecidableEq, Repr

/-- Calls that leave the package and mutex operations, in the order they are made. -/
inductive Event where
  | httpDo (req : Request)
  | noticeComponentAccessTokenExpire
  | getComponentAccessToken
  | getComponentVerifyTicket
  | cacheFetch (key : String)
  | cacheSave (key value : String) (lifeTime : Int)
  | cacheDelete (key : String)
  | httpPost (url contentType : String) (payload : Params)
  | lock (m : Mutex)
  | unlock (m : Mutex)
  deriving DecidableEq, Repr

/-- Requests sent with `http.DefaultClient.Do`, oldest first. -/
def requestsOf (trace : List Event) : List Request :=
  trace.filterMap (fun ev =>
    match ev with
    | .httpDo req => some req
    | _ => none)

/-- Cache writes `Save(key, value, lifeTime)`, oldest first. -/
def savesOf (trace : List Event) : List (String × String × Int) :=
  trace.filterMap (fun ev =>
    match ev with
    | .cacheSave key value lifeTime => some (key, value, lifeTime)
    | _ => none)

/-- Whether an event is one of the calls `Client.httpDo` and the request
builders make themselves: a request or the call of one of the two token handlers. -/
def Event.isClientCall : Event → Bool
  | .httpDo _ => true
  | .noticeComponentAccessTokenExpire => true
  | .getComponentAccessToken => true
  | _ => false

/-- Requests sent to the refresh endpoint with `http.Post`, oldest first. -/
def postsOf (trace : List Event) : List (String × String × Params) :=
  trace.filterMap (fun ev =>
    match ev with
    | .httpPost url contentType payload => some (url, contentType, payload)
    | _ => none)

/-- What a call of `Client.httpDo` leaves behind: the named results `resp` and
`err`, the world afterwards and the calls made. -/
structure Outcome (σ : Type) where
  resp : String
  err : Option Error
  state : σ
  trace : List Event

/-! ## client.go -/

variable {σ : Type}

/-- Last block of `Client.httpDo` (lines 123-140): one resend when `err` is
`ErrorSystemBusy`.  A transport error leaves `resp` as it was. -/
def Client.retrySystemBusy (net : Net σ) (req : Request) (o : Outcome σ) : Outcome σ :=
  if o.err = some ErrorSystemBusy then
    match net.Do req o.state with
    | (.error e, s) =>
      { resp := o.resp, err := some e, state := s, trace := o.trace ++ [Event.httpDo req] }
    | (.ok response, s) =>
      { resp := (responseFilter response).1, err := (responseFilter response).2,
        state := s, trace := o.trace ++ [Event.httpDo req] }
  else o

/-- The request "patched" in lines 106-108: the query re-encoded with the new token set. -/
def Client.patchToken (req : Request) (accessToken : String) : Request :=
  { req with URL := { req.URL with
      RawQuery := (req.URL.Query.Set "component_access_token" accessToken).Encode } }

/-- Middle block of `Client.httpDo` (lines 89-121), entered when the first
answer was classified `ErrorComponentAccessTokenExpire`; `resp` is the first body. -/
def Client.retryTokenExpire (net : Net σ) (ctx : Platform σ) (req : Request)
    (resp : String) (s1 : σ) : Outcome σ :=
  match ctx.NoticeComponentAccessTokenExpireHandler s1 with
  | (some e, s2) =>
    { resp := resp, err := some e, state := s2,
      trace := [Event.httpDo req, Event.noticeComponentAccessTokenExpire] }
  | (none, s2) =>
    match ctx.GetComponentAccessTokenHandler s2 with
    | ((_, some e), s3) =>
      { resp := resp, err := some e, state := s3,
        trace := [Event.httpDo req, Event.noticeComponentAccessTokenExpire,
                  Event.getComponentAccessToken] }
    | ((accessToken, none), s3) =>
      match net.Do (Client.patchToken req accessToken) s3 with
      | (.error e, s4) =>
        { resp := resp, err := some e, state := s4,
          trace := [Event.httpDo req, Event.noticeComponentAccessTokenExpire,
                    Event.getComponentAccessToken,
                    Event.httpDo (Client.patchToken req accessToken)] }
      | (.ok response, s4) =>
        Client.retrySystemBusy net (Client.patchToken req accessToken)
          { resp := (responseFilter response).1, err := (responseFilter response).2,
            state := s4,
            trace := [Event.httpDo req, Event.noticeComponentAccessTokenExpire,
                      Event.getComponentAccessToken,
                      Event.httpDo (Client.patchToken req accessToken)] }

/-- Method `Client.httpDo` of `client.go`. -/
def Client.httpDo (net : Net σ) (ctx : Platform σ) (req0 : Request) (s0 : σ) : Outcome σ :=
  let req := req0.HeaderAdd "User-Agent" UserAgent
  match net.Do req s0 with
  | (.error e, s1) => { resp := "", err := some e, state := s1, trace := [Event.httpDo req] }
  | (.ok response, s1) =>
    if (responseFilter response).2 = some ErrorComponentAccessTokenExpire then
      Client.retryTokenExpire net ctx req (responseFilter response).1 s1
    else
      Client.retrySystemBusy net req
        { resp := (responseFilter response).1, err := (responseFilter response).2,
          state := s1, trace := [Event.httpDo req] }

/-! ## wxopen.go -/

/-- Conversion to `int64`: the value kept modulo `2^64`, in `[-2^63, 2^63)`. -/
def wrapInt64 (x : Int) : Int := (x + 2 ^ 63) % 2 ^ 64 - 2 ^ 63

/-- Constant `time.Second`, in nanoseconds. -/
def timeSecond : Int := 1000000000

/-- The struct `result` of `refreshComponentAccessToken`, as far as it is read. -/
structure TokenResult where
  AccessToken : String
  ExpiresIn : Int
  deriving DecidableEq, Repr

/-- Call `json.Unmarshal(resp, &result)`: the error and the struct afterwards. -/
def jsonUnmarshalTokenResult (response : TokenResponse) (target : TokenResult) :
    Option Error × TokenResult :=
  match response.Decoded with
  | .error e => (some e, target)
  | .ok m => (none, { AccessToken := m.component_access_token.getD target.AccessToken,
                      ExpiresIn := m.expires_in.getD target.ExpiresIn })

/-- Results of `refreshComponentAccessToken` with the world afterwards and the calls made. -/
structure RefreshOutcome (σ : Type) where
  accessToken : String
  expiresIn : Int
  err : Option Error
  state : σ
  trace : List Event

/-- Function `refreshComponentAccessToken` of `wxopen.go`. -/
def refreshComponentAccessToken (net : Net σ) (appid secret ticket : String) (s0 : σ) :
    RefreshOutcome σ :=
  let params : Params :=
    { ComponentAppid := appid, ComponentAppsecret := secret, ComponentVerifyTicket := ticket }
  let url := WXServerUrl ++ "/cgi-bin/component/api_component_token"
  let contentType := "application/json;charset=utf-8"
  match net.Post url contentType params s0 with
  | (.error e, s1) =>
    { accessToken := "", expiresIn := 0, err := some e, state := s1,
      trace := [Event.httpPost url contentType params] }
  | (.ok response, s1) =>
    if response.StatusCode ≠ 200 then
      { accessToken := "", expiresIn := 0,
        err := some (Error.New ("GET " ++ url ++ " RETURN " ++ response.Status)),
        state := s1, trace := [Event.httpPost url contentType params] }
    else
      match response.ReadErr with
      | some e =>
        { accessToken := "", expiresIn := 0, err := some e, state := s1,
          trace := [Event.httpPost url contentType params] }
      | none =>
        match jsonUnmarshalTokenResult response { AccessToken := "", ExpiresIn := 0 } with
        | (some _, _) =>
          { accessToken := "", expiresIn := 0,
            err := some (Error.New ("Unmarshal error " ++ response.Body)),
            state := s1, trace := [Event.httpPost url contentType params] }
        | (none, result) =>
          if result.AccessToken = "" then
            { accessToken := "", expiresIn := 0, err := some (Error.New response.Body),
              state := s1, trace := [Event.httpPost url contentType params] }
          else
            { accessToken := result.AccessToken, expiresIn := result.ExpiresIn, err := none,
              state := s1, trace := [Event.httpPost url contentType params] }

/-- Function `GetComponentAccessToken` of `wxopen.go`; the named results are
`resp` (the access token) and `err`. -/
def GetComponentAccessToken (net : Net σ) (ctx : Platform σ) (s0 : σ) : Outcome σ :=
  match ctx.Cache.Fetch ctx.Config.AppId s0 with
  | ((accessToken, err), s1) =>
    if accessToken ≠ "" then
      { resp := accessToken, err := err, state := s1,
        trace := [Event.cacheFetch ctx.Config.AppId] }
    else
      match ctx.Cache.Fetch ctx.Config.AppId s1 with
      | ((accessToken, err), s2) =>
        if accessToken ≠ "" then
          { resp := accessToken, err := err, state := s2,
            trace := [Event.cacheFetch ctx.Config.AppId,
                      Event.lock Mutex.refreshComponentAccessTokenLock,
                      Event.cacheFetch ctx.Config.AppId,
                      Event.unlock Mutex.refreshComponentAccessTokenLock] }
        else
          match ctx.GetComponentVerifyTicketHandler s2 with
          | ((_, some e), s3) =>
            { resp := accessToken, err := some e, state := s3,
              trace := [Event.cacheFetch ctx.Config.AppId,
                        Event.lock Mutex.refreshComponentAccessTokenLock,
                        Event.cacheFetch ctx.Config.AppId,
                        Event.getComponentVerifyTicket,
                        Event.unlock Mutex.refreshComponentAccessTokenLock] }
          | ((ticket, none), s3) =>
            let r := refreshComponentAccessToken net ctx.Config.AppId ctx.Config.AppSecret ticket s3
            match r.err with
            | some e =>
              { resp := r.accessToken, err := some e, state := r.state,
                trace := [Event.cacheFetch ctx.Config.AppId,
                          Event.lock Mutex.refreshComponentAccessTokenLock,
                          Event.cacheFetch ctx.Config.AppId,
                          Event.getComponentVerifyTicket] ++ r.trace ++
                         [Event.unlock Mutex.refreshComponentAccessTokenLock] }
            | none =>
              let d := wrapInt64 (wrapInt64 r.expiresIn * timeSecond)
              { resp := r.accessToken, err := none,
                state := (ctx.Cache.Save ctx.Config.AppId r.accessToken d r.state).2,
                trace := [Event.cacheFetch ctx.Config.AppId,
                          Event.lock Mutex.refreshComponentAccessTokenLock,
                          Event.cacheFetch ctx.Config.AppId,
                          Event.getComponentVerifyTicket] ++ r.trace ++
                         [Event.cacheSave ctx.Config.AppId r.accessToken d,
                          Event.unlock Mutex.refreshComponentAccessTokenLock] }

/-- Function `NoticeComponentAccessTokenExpire` of `wxopen.go`. -/
def NoticeComponentAccessTokenExpire (ctx : Platform σ) (s0 : σ) :
    Option Error × σ × List Event :=
  match ctx.Cache.Delete ctx.Config.AppId s0 with
  | (err, s1) => (err, s1, [Event.cacheDelete ctx.Config.AppId])

/-- Function `GetComponentVerifyTicket` of `wxopen.go`. -/
def GetComponentVerifyTicket (cache : Cache σ) (config : PlatformConfig) (s0 : σ) :
    (String × Option Error) × σ :=
  cache.Fetch ("component_verify_ticket :" ++ config.AppId) s0

/-- Function `ReceiveComponentVerifyTicket` of `wxopen.go`. -/
def ReceiveComponentVerifyTicket (cache : Cache σ) (config : PlatformConfig) (ticket : String)
    (s0 : σ) : Option Error × σ :=
  cache.Save ("component_verify_ticket :" ++ config.AppId) ticket 0 s0

/-! ## client.go : the request builders -/

/-- Method `Client.applyComponentAccessToken`: `resp` is the result `newUrl`. -/
def Client.applyComponentAccessToken (ctx : Platform σ) (oldUrl : String) (s0 : σ) :
    Outcome σ :=
  match ctx.GetComponentAccessTokenHandler s0 with
  | ((_, some e), s1) =>
    { resp := "", err := some e, state := s1, trace := [Event.getComponentAccessToken] }
  | ((accessToken, none), s1) =>
    if '?' ∈ oldUrl.toList then
      { resp := oldUrl ++ "&component_access_token=" ++ accessToken, err := none, state := s1,
        trace := [Event.getComponentAccessToken] }
    else
      { resp := oldUrl ++ "?component_access_token=" ++ accessToken, err := none, state := s1,
        trace := [Event.getComponentAccessToken] }

/-- Method `Client.HTTPGet`.  `NewRequest` is `http.NewRequest` applied to a
method and an address (it fails on an address that does not parse). -/
def Client.HTTPGet (NewRequest : String → String → Except Error Request) (net : Net σ)
    (ctx : Platform σ) (uri : String) (s0 : σ) : Outcome σ :=
  let a := Client.applyComponentAccessToken ctx uri s0
  match a.err with
  | some e => { resp := "", err := some e, state := a.state, trace := a.trace }
  | none =>
    match NewRequest "GET" (WXServerUrl ++ a.resp) with
    | .error e => { resp := "", err := some e, state := a.state, trace := a.trace }
    | .ok req =>
      { resp := (Client.httpDo net ctx req a.state).resp,
        err := (Client.httpDo net ctx req a.state).err,
        state := (Client.httpDo net ctx req a.state).state,
        trace := a.trace ++ (Client.httpDo net ctx req a.state).trace }

/-- Method `Client.HTTPPost`; the payload reader is not modelled. -/
def Client.HTTPPost (NewRequest : String → String → Except Error Request) (net : Net σ)
    (ctx : Platform σ) (uri contentType : String) (s0 : σ) : Outcome σ :=
  let a := Client.applyComponentAccessToken ctx uri s0
  match a.err with
  | some e => { resp := "", err := some e, state := a.state, trace := a.trace }
  | none =>
    match NewRequest "POST" (WXServerUrl ++ a.resp) with
    | .error e => { resp := "", err := some e, state := a.state, trace := a.trace }
    | .ok req =>
      { resp := (Client.httpDo net ctx (req.HeaderAdd "Content-Type" contentType) a.state).resp,
        err := (Client.httpDo net ctx (req.HeaderAdd "Content-Type" contentType) a.state).err,
        state :=
          (Client.httpDo net ctx (req.HeaderAdd "Content-Type" contentType) a.state).state,
        trace := a.trace ++
          (Client.httpDo net ctx (req.HeaderAdd "Content-Type" contentType) a.state).trace }

/-! ## wxopen.go : the authorizer tokens -/

/-- Function `GetAuthorizerAccessToken` of `wxopen.go`. -/
def GetAuthorizerAccessToken (ctx : Platform σ) (appid : String) (s0 : σ) :
    (String × Option Error) × σ :=
  ctx.Cache.Fetch ("authorizer_access_token:" ++ appid) s0

/-- Members of the answer of `api_authorizer_token` that `json.Unmarshal` stores
into `apiAuthorizerTokenResp`; `none` for a member that is absent. -/
structure AuthorizerTokenMembers where
  authorizer_access_token : Option String
  expires_in : Option Int
  authorizer_refresh_token : Option String
  deriving DecidableEq, Repr

/-- Result `err` of a function that returns only an error, with the world
afterwards and the events of the call. -/
structure ErrOutcome (σ : Type) where
  err : Option Error
  state : σ
  trace : List Event

/-- Function `NoticeAuthorizerAccessTokenExpire` of `wxopen.go`.  `Unmarshal`
is the outcome of `json.Unmarshal(apiAuthorizerToken, &apiAuthorizerTokenResp)`
on the given bytes; the deferred `Unlock` closes every trace. -/
def NoticeAuthorizerAccessTokenExpire (NewRequest : String → String → Except Error Request)
    (Unmarshal : String → Except Error AuthorizerTokenMembers) (net : Net σ)
    (ctx : Platform σ) (appid : String) (s0 : σ) : ErrOutcome σ :=
  match ctx.Cache.Fetch ("authorizer_refresh_token:" ++ appid) s0 with
  | ((_, some e), s1) =>
    { err := some e, state := s1,
      trace := [Event.lock Mutex.noticeAuthorizerAccessTokenExpireLock,
                Event.cacheFetch ("authorizer_refresh_token:" ++ appid),
                Event.unlock Mutex.noticeAuthorizerAccessTokenExpireLock] }
  | ((_, none), s1) =>
    let post := Client.HTTPPost NewRequest net ctx "/cgi-bin/component/api_authorizer_token"
      "application/json;charset=utf-8" s1
    match post.err with
    | some e =>
      { err := some e, state := post.state,
        trace := [Event.lock Mutex.noticeAuthorizerAccessTokenExpireLock,
                  Event.cacheFetch ("authorizer_refresh_token:" ++ appid)] ++ post.trace ++
                 [Event.unlock Mutex.noticeAuthorizerAccessTokenExpireLock] }
    | none =>
      match Unmarshal post.resp with
      | .error e =>
        { err := some e, state := post.state,
          trace := [Event.lock Mutex.noticeAuthorizerAccessTokenExpireLock,
                    Event.cacheFetch ("authorizer_refresh_token:" ++ appid)] ++ post.trace ++
                   [Event.unlock Mutex.noticeAuthorizerAccessTokenExpireLock] }
      | .ok m =>
        match ctx.Cache.Save ("authorizer_access_token:" ++ appid)
            (m.authorizer_access_token.getD "") 0 post.state with
        | (some e, s3) =>
          { err := some e, state := s3,
            trace := [Event.lock Mutex.noticeAuthorizerAccessTokenExpireLock,
                      Event.cacheFetch ("authorizer_refresh_token:" ++ appid)] ++ post.trace ++
                     [Event.cacheSave ("authorizer_access_token:" ++ appid)
                        (m.authorizer_access_token.getD "") 0,
                      Event.unlock Mutex.noticeAuthorizerAccessTokenExpireLock] }
        | (none, s3) =>
          match ctx.Cache.Save ("authorizer_refresh_token:" ++ appid)
              (m.authorizer_refresh_token.getD "") 0 s3 with
          | (err, s4) =>
            { err := err, state := s4,
              trace := [Event.lock Mutex.noticeAuthorizerAccessTokenExpireLock,
                        Event.cacheFetch ("authorizer_refresh_token:" ++ appid)] ++
                       post.trace ++
                       [Event.cacheSave ("authorizer_access_token:" ++ appid)
                          (m.authorizer_access_token.getD "") 0,
                        Event.cacheSave ("authorizer_refresh_token:" ++ appid)
                          (m.authorizer_refresh_token.getD "") 0,
                        Event.unlock Mutex.noticeAuthorizerAccessTokenExpireLock] }

/-! ## type_platform and server.go : the callback messages -/

/-- Type `xml.Name`. -/
structure XMLName where
  Space : String
  Local : String
  deriving DecidableEq, Repr

/-- Outcome of a successful `xml.Unmarshal` of a body into a struct whose
`XMLName` is tagged `xml` and whose other fields are untagged strings: the name
of the root element and, for every element name, the character data stored
into the field of that name (empty when the body has no such element). -/
structure XMLMembers where
  Name : XMLName
  Text : String → String

namespace type_platform

/-- Constant `EventTypeComponentVerifyTicket`. -/
def EventTypeComponentVerifyTicket : String := "component_verify_ticket"

/-- Constant `EventTypeAuthorized`. -/
def EventTypeAuthorized : String := "authorized"

/-- Constant `EventTypeUnauthorized`. -/
def EventTypeUnauthorized : String := "unauthorized"

/-- Constant `EventTypeUpdateAuthorized`. -/
def EventTypeUpdateAuthorized : String := "updateauthorized"

/-- Type `type_platform.Event`. -/
structure Event where
  XMLName : XMLName
  AppId : String
  CreateTime : String
  InfoType : String
  deriving DecidableEq, Repr

/-- Type `type_platform.EventComponentVerifyTicket`. -/
structure EventComponentVerifyTicket where
  Event : Event
  ComponentVerifyTicket : String
  deriving DecidableEq, Repr

/-- Type `type_platform.EventAuthorized`. -/
structure EventAuthorized where
  Event : Event
  AuthorizerAppid : String
  AuthorizationCode : String
  AuthorizationCodeExpiredTime : String
  PreAuthCode : String
  deriving DecidableEq, Repr

/-- Type `type_platform.EventUnauthorized`. -/
structure EventUnauthorized where
  Event : Event
  AuthorizerAppid : String
  deriving DecidableEq, Repr

/-- Type `type_platform.EventUpdateAuthorized`. -/
structure EventUpdateAuthorized where
  Event : Event
  AuthorizerAppid : String
  AuthorizationCode : String
  AuthorizationCodeExpiredTime : String
  PreAuthCode : String
  deriving DecidableEq, Repr

end type_platform

/-- Call `xml.Unmarshal(body, &event)` for `event` a `type_platform.Event`
itself, on a body that decodes to `doc`: here `XMLName` is the first field of
the target and receives the name of the root element. -/
def xmlUnmarshalEvent (doc : XMLMembers) : type_platform.Event :=
  { XMLName := doc.Name, AppId := doc.Text "AppId", CreateTime := doc.Text "CreateTime",
    InfoType := doc.Text "InfoType" }

/-- The embedded `Event` of a message struct after `xml.Unmarshal(body, &msg)`:
the promoted string fields are filled, but `XMLName` keeps its zero value,
because `encoding/xml` looks the name field up by its index inside `Event`,
which in the outer struct is the embedded `Event` and not an `xml.Name`. -/
def xmlUnmarshalEmbeddedEvent (doc : XMLMembers) : type_platform.Event :=
  { XMLName := { Space := "", Local := "" }, AppId := doc.Text "AppId",
    CreateTime := doc.Text "CreateTime", InfoType := doc.Text "InfoType" }

/-- Call `xml.Unmarshal(body, &msg)` for `msg` an `EventComponentVerifyTicket`. -/
def xmlUnmarshalEventComponentVerifyTicket (doc : XMLMembers) :
    type_platform.EventComponentVerifyTicket :=
  { Event := xmlUnmarshalEmbeddedEvent doc,
    ComponentVerifyTicket := doc.Text "ComponentVerifyTicket" }

/-- Call `xml.Unmarshal(body, &msg)` for `msg` an `EventAuthorized`. -/
def xmlUnmarshalEventAuthorized (doc : XMLMembers) : type_platform.EventAuthorized :=
  { Event := xmlUnmarshalEmbeddedEvent doc, AuthorizerAppid := doc.Text "AuthorizerAppid",
    AuthorizationCode := doc.Text "AuthorizationCode",
    AuthorizationCodeExpiredTime := doc.Text "AuthorizationCodeExpiredTime",
    PreAuthCode := doc.Text "PreAuthCode" }

/-- Call `xml.Unmarshal(body, &msg)` for `msg` an `EventUnauthorized`. -/
def xmlUnmarshalEventUnauthorized (doc : XMLMembers) : type_platform.EventUnauthorized :=
  { Event := xmlUnmarshalEmbeddedEvent doc, AuthorizerAppid := doc.Text "AuthorizerAppid" }

/-- Call `xml.Unmarshal(body, &msg)` for `msg` an `EventUpdateAuthorized`. -/
def xmlUnmarshalEventUpdateAuthorized (doc : XMLMembers) :
    type_platform.EventUpdateAuthorized :=
  { Event := xmlUnmarshalEmbeddedEvent doc, AuthorizerAppid := doc.Text "AuthorizerAppid",
    AuthorizationCode := doc.Text "AuthorizationCode",
    AuthorizationCodeExpiredTime := doc.Text "AuthorizationCodeExpiredTime",
    PreAuthCode := doc.Text "PreAuthCode" }

/-- The result `m interface{}` of `Server.ParseXML`: `nil` or a value of one of
the four message types. -/
inductive Message where
  | nil
  | EventComponentVerifyTicket (msg : type_platform.EventComponentVerifyTicket)
  | EventAuthorized (msg : type_platform.EventAuthorized)
  | EventUnauthorized (msg : type_platform.EventUnauthorized)
  | EventUpdateAuthorized (msg : type_platform.EventUpdateAuthorized)
  deriving DecidableEq, Repr

/-- Lines 68-107 of `Server.ParseXML`: the body, decrypted if it had to be, is
decoded as an `Event` and then as the message type its `InfoType` names. -/
def Server.classify (Unmarshal : String → Except Error XMLMembers) (body : String) :
    Message × Option Error :=
  match Unmarshal body with
  | .error e => (Message.nil, some e)
  | .ok doc =>
    if (xmlUnmarshalEvent doc).InfoType = type_platform.EventTypeComponentVerifyTicket then
      match Unmarshal body with
      | .error e => (Message.nil, some e)
      | .ok d => (Message.EventComponentVerifyTicket (xmlUnmarshalEventComponentVerifyTicket d),
          none)
    else if (xmlUnmarshalEvent doc).InfoType = type_platform.EventTypeAuthorized then
      match Unmarshal body with
      | .error e => (Message.nil, some e)
      | .ok d => (Message.EventAuthorized (xmlUnmarshalEventAuthorized d), none)
    else if (xmlUnmarshalEvent doc).InfoType = type_platform.EventTypeUnauthorized then
      match Unmarshal body with
      | .error e => (Message.nil, some e)
      | .ok d => (Message.EventUnauthorized (xmlUnmarshalEventUnauthorized d), none)
    else if (xmlUnmarshalEvent doc).InfoType = type_platform.EventTypeUpdateAuthorized then
      match Unmarshal body with
      | .error e => (Message.nil, some e)
      | .ok d => (Message.EventUpdateAuthorized (xmlUnmarshalEventUpdateAuthorized d), none)
    else
      (Message.nil, none)

/-- Method `Server.ParseXML` of `server.go`.  `Unmarshal` is `xml.Unmarshal`
on the given bytes; `AESDecryptMsg` is `util.AESDecryptMsg` of the
`offiaccount` module, with results `(random, rawXMLMsg, appId)` and `err`;
`encryptMsg.Encrypt` is the text of the element `Encrypt`. -/
def Server.ParseXML (Unmarshal : String → Except Error XMLMembers)
    (AESDecryptMsg : String → String → (String × String × String) × Option Error)
    (ctx : Platform σ) (body : String) : Message × Option Error :=
  match Unmarshal body with
  | .error e => (Message.nil, some e)
  | .ok encryptMsg =>
    if encryptMsg.Text "Encrypt" ≠ "" then
      match AESDecryptMsg (encryptMsg.Text "Encrypt") ctx.Config.AesKey with
      | (_, some e) => (Message.nil, some e)
      | ((_, xmlMsg, _), none) => Server.classify Unmarshal xmlMsg
    else
      Server.classify Unmarshal body

/-! ## server.go : the replies -/

/-- Type `type_message.ReplyEncryptMessage` of the `offiaccount` module, with
the four fields `Server.encryptReplyMessage` fills in. -/
structure ReplyEncryptMessage where
  Encrypt : String
  MsgSignature : String
  TimeStamp : String
  Nonce : String
  deriving DecidableEq, Repr

/-- Function `sort.Strings`: the strings in increasing order. -/
def sortStrings (strs : List String) : List String :=
  List.insertionSort (fun a b : String => a ≤ b) strs

/-- One hexadecimal digit in lower case. -/
def hexDigit (n : Nat) : Char :=
  if n < 10 then Char.ofNat (48 + n) else Char.ofNat (87 + n)

/-- Call `fmt.Sprintf("%x", bytes)`: two lower-case hexadecimal digits per byte. -/
def hexEncode (bytes : List UInt8) : String :=
  String.mk (bytes.flatMap (fun b => [hexDigit (b.toNat / 16), hexDigit (b.toNat % 16)]))

/-- Call `strconv.FormatInt(i, 10)`. -/
def strconv.FormatInt (i : Int) : String := toString i

/-- Lines 151-154 of `Server.encryptReplyMessage`: the strings are sorted,
joined without separator, hashed and printed in hexadecimal.  `SHA1` is the
digest computed by `crypto/sha1`. -/
def Server.signature (SHA1 : String → List UInt8) (strs : List String) : String :=
  hexEncode (SHA1 (String.join (sortStrings strs)))

/-- Method `Server.encryptReplyMessage` of `server.go`.  `AESEncryptMsg` is
`util.AESEncryptMsg` of the `offiaccount` module; `random16` and `nonce` are
the results of `util.GetRandString(16)` and `util.GetRandString(6)`, `now` is
the result of `time.Now().Unix()`. -/
def Server.encryptReplyMessage (AESEncryptMsg : String → String → String → String → String)
    (SHA1 : String → List UInt8) (ctx : Platform σ) (random16 : String) (now : Int)
    (nonce : String) (rawXmlMsg : String) : ReplyEncryptMessage :=
  let cipherText := AESEncryptMsg random16 rawXmlMsg ctx.Config.AppId ctx.Config.AesKey
  let timestamp := strconv.FormatInt now
  { Encrypt := cipherText,
    MsgSignature := Server.signature SHA1 [timestamp, nonce, ctx.Config.Token, cipherText],
    TimeStamp := timestamp,
    Nonce := nonce }

/-- Method `Values.Get`: the first value stored under `key`, or the empty string. -/
def Values.Get (v : Values) (key : String) : String := (v.lookup key).headD ""

/-- Result `err` of `Server.Response`, the world afterwards and the byte
slices handed to `writer.Write`, oldest first. -/
structure ResponseOutcome (σ : Type) where
  err : Option Error
  state : σ
  written : List String

/-- Method `Server.Response` of `server.go`.  `reply` is `none` for a nil
interface; `Marshal` and `MarshalEnvelope` are `xml.Marshal` on the reply and
on the encrypted envelope; `Write` is `writer.Write`; the remaining parameters
are those of `Server.encryptReplyMessage`. -/
def Server.Response {ρ : Type} (Marshal : ρ → Except Error String)
    (MarshalEnvelope : ReplyEncryptMessage → Except Error String)
    (AESEncryptMsg : String → String → String → String → String)
    (SHA1 : String → List UInt8) (ctx : Platform σ) (random16 : String) (now : Int)
    (nonce : String) (Write : String → σ → Option Error × σ) (request : Request)
    (reply : Option ρ) (s0 : σ) : ResponseOutcome σ :=
  match reply with
  | none =>
    { err := (Write "success" s0).1, state := (Write "success" s0).2, written := ["success"] }
  | some r =>
    match Marshal r with
    | .error e => { err := some e, state := s0, written := [] }
    | .ok output =>
      if request.URL.Query.Get "encrypt_type" = "aes" then
        match MarshalEnvelope
            (Server.encryptReplyMessage AESEncryptMsg SHA1 ctx random16 now nonce output) with
        | .error e => { err := some e, state := s0, written := [] }
        | .ok envelope =>
          { err := (Write envelope s0).1, state := (Write envelope s0).2,
            written := [envelope] }
      else
        { err := (Write output s0).1, state := (Write output s0).2, written := [output] }

/-! ## A concrete world: the mock server of `test/test.go`

An in-memory cache and a remote end that answers from a script, used to run the
embedding on concrete inputs. -/

/-- World of the mock set-up: cache entries (newest first), the answers the
remote end still has to give to `Do`, and its answer to the refresh `Post`. -/
structure MockWorld where
  entries : List (String × String)
  answers : List Response
  refresh : TokenResponse

/-- An in-memory cache: `Fetch` of a missing key gives the empty string and an error. -/
def mockCache : Cache MockWorld where
  Fetch := fun key w =>
    match w.entries.lookup key with
    | some v => ((v, none), w)
    | none => (("", some (Error.Foreign "cache expired")), w)
  Save := fun key value _ w => (none, { w with entries := (key, value) :: w.entries })
  Delete := fun key w =>
    (none, { w with entries := w.entries.filter (fun p => !decide (p.1 = key)) })

/-- A remote end that hands out the scripted answers in order and refuses the
connection once the script is used up. -/
def mockNet : Net MockWorld where
  Do := fun _ w =>
    match w.answers with
    | [] => (.error (Error.Foreign "connection refused"), w)
    | r :: rest => (.ok r, { w with answers := rest })
  Post := fun _ _ _ w => (.ok w.refresh, w)

/-- Configuration used by `test.Setup`. -/
def mockConfig : PlatformConfig :=
  { AppId := "APPID", AppSecret := "SECRET", Token := "TOKEN", AesKey := "AesKey" }

/-- The platform of `NewPlatform(mockConfig)` over the in-memory cache, before
the component-token handler is plugged in. -/
def mockBase : Platform MockWorld where
  Config := mockConfig
  Cache := mockCache
  GetComponentVerifyTicketHandler := GetComponentVerifyTicket mockCache mockConfig
  GetComponentAccessTokenHandler := fun w => (("", none), w)
  NoticeComponentAccessTokenExpireHandler := fun w => mockCache.Delete mockConfig.AppId w

/-- The platform of `NewPlatform(mockConfig)` with the default handlers of the package. -/
def mockPlatform : Platform MockWorld :=
  { mockBase with
    GetComponentAccessTokenHandler := fun w =>
      (((GetComponentAccessToken mockNet mockBase w).resp,
        (GetComponentAccessToken mockNet mockBase w).err),
       (GetComponentAccessToken mockNet mockBase w).state) }

/-- A 200 answer with the given body, decoding to the given `errcode` and `errmsg`. -/
def jsonAnswer (body : String) (errcode : Int) (errmsg : String) : Response :=
  { StatusCode := 200, Status := "200 OK", Body := body, ReadErr := none,
    Decoded := .ok { errcode := some errcode, errmsg := some errmsg } }

/-- Answer "access_token expired" (errcode 42001). -/
def answerExpired : Response :=
  jsonAnswer "\x7b\"errcode\":42001,\"errmsg\":\"access_token expired\"\x7d"
    42001 "access_token expired"

/-- Answer "invalid credential" (errcode 40001). -/
def answerInvalid : Response :=
  jsonAnswer "\x7b\"errcode\":40001,\"errmsg\":\"invalid credential\"\x7d"
    40001 "invalid credential"

/-- Answer "system error" (errcode -1). -/
def answerBusy : Response :=
  jsonAnswer "\x7b\"errcode\":-1,\"errmsg\":\"system error\"\x7d" (-1) "system error"

/-- Answer "ok" (errcode 0). -/
def answerOk : Response :=
  jsonAnswer "\x7b\"errcode\":0,\"errmsg\":\"ok\"\x7d" 0 "ok"

/-- Answer "invalid appid" (errcode 40013). -/
def answerInvalidAppid : Response :=
  jsonAnswer "\x7b\"errcode\":40013,\"errmsg\":\"invalid appid\"\x7d" 40013 "invalid appid"

/-- A 200 answer without the envelope members. -/
def answerPlainObject : Response :=
  { StatusCode := 200, Status := "200 OK", Body := "\x7b\"total_count\":0\x7d",
    ReadErr := none, Decoded := .ok { errcode := none, errmsg := none } }

/-- A 200 answer whose body is an HTML page, which `json.Unmarshal` rejects. -/
def answerHtml : Response :=
  { StatusCode := 200, Status := "200 OK", Body := "<html></html>", ReadErr := none,
    Decoded := .error (Error.Foreign "invalid character < looking for beginning of value") }

/-- The refresh answer served by the mock server of `test.Setup`. -/
def mockRefresh : TokenResponse :=
  { StatusCode := 200, Status := "200 OK",
    Body := "\x7b\"component_access_token\":\"ACCESS_TOKEN\",\"expires_in\":7200\x7d",
    ReadErr := none,
    Decoded := .ok { component_access_token := some "ACCESS_TOKEN", expires_in := some 7200 } }

/-- The world after `test.Setup`: the ticket `TICKET` received, nothing else
cached, and the given script of answers. -/
def mockWorld (answers : List Response) : MockWorld :=
  (ReceiveComponentVerifyTicket mockCache mockConfig "TICKET"
    { entries := [], answers := answers, refresh := mockRefresh }).2

/-- A GET request for `/cgi-bin/component/api_get_authorizer_list` carrying the token `OLD`. -/
def mockRequest : Request :=
  { Method := "GET",
    URL := { Base := WXServerUrl ++ "/cgi-bin/component/api_get_authorizer_list",
             RawQuery := [QuerySegment.pair "offset" "0",
                          QuerySegment.pair "component_access_token" "OLD"] },
    Header := [] }

/-- A remote end that answers every request with `errcode=42001`. -/
def expiredNet : Net MockWorld where
  Do := fun _ w => (.ok answerExpired, w)
  Post := mockNet.Post

/-- The mock platform with a token handler that always hands out `FRESH`. -/
def freshPlatform : Platform MockWorld :=
  { mockBase with GetComponentAccessTokenHandler := fun w => (("FRESH", none), w) }

/-- A stand-in for `http.NewRequest` that accepts every address and keeps it
whole, without splitting off the query. -/
def mockNewRequest (method url : String) : Except Error Request :=
  .ok { Method := method, URL := { Base := url, RawQuery := [] }, Header := [] }

/-- The answer of `api_authorizer_token` with the new tokens `ACCESS_NEW` and `REFRESH_NEW`. -/
def answerAuthorizerToken : Response :=
  { StatusCode := 200, Status := "200 OK",
    Body := "\x7b\"authorizer_access_token\":\"ACCESS_NEW\",\"expires_in\":7200," ++
      "\"authorizer_refresh_token\":\"REFRESH_NEW\"\x7d",
    ReadErr := none, Decoded := .ok { errcode := none, errmsg := none } }

/-- Decoding of the bodies the mock server sends for `api_authorizer_token`. -/
def mockUnmarshalAuthorizerToken (body : String) : Except Error AuthorizerTokenMembers :=
  if body = answerAuthorizerToken.Body then
    .ok { authorizer_access_token := some "ACCESS_NEW", expires_in := some 7200,
          authorizer_refresh_token := some "REFRESH_NEW" }
  else .error (Error.Foreign "unexpected end of JSON input")

/-- The world after `test.Setup` and after the account `wxAUTHORIZER` was
authorized: its refresh token `REFRESH_OLD` is cached. -/
def mockAuthorizedWorld (answers : List Response) : MockWorld :=
  (mockCache.Save "authorizer_refresh_token:wxAUTHORIZER" "REFRESH_OLD" 0 (mockWorld answers)).2

/-- A world in which a component token is cached but no ticket was ever received. -/
def mockTicketlessWorld : MockWorld :=
  { entries := [("APPID", "OLD_TOKEN")], answers := [], refresh := mockRefresh }

/-- A world in which nothing is cached: no component token and no ticket. -/
def mockEmptyWorld : MockWorld :=
  { entries := [], answers := [], refresh := mockRefresh }

/-- A ticket push, as in the comment of `type_platform.go`. -/
def ticketPushBody : String :=
  "<xml><AppId>some_appid</AppId><CreateTime>1413192605</CreateTime>" ++
  "<InfoType>component_verify_ticket</InfoType>" ++
  "<ComponentVerifyTicket>some_verify_ticket</ComponentVerifyTicket></xml>"

/-- A push whose `InfoType` is none of the four the package knows. -/
def fastRegisterBody : String :=
  "<xml><AppId>some_appid</AppId><CreateTime>1535442403</CreateTime>" ++
  "<InfoType>notify_third_fasteregister</InfoType></xml>"

/-- Members of an XML body given as the list of its elements. -/
def membersOf (elements : List (String × String)) : XMLMembers :=
  { Name := { Space := "", Local := "xml" },
    Text := fun name => (elements.lookup name).getD "" }

/-- Decoding of the two bodies above; everything else is rejected. -/
def mockXMLUnmarshal (body : String) : Except Error XMLMembers :=
  if body = ticketPushBody then
    .ok (membersOf [("AppId", "some_appid"), ("CreateTime", "1413192605"),
      ("InfoType", "component_verify_ticket"), ("ComponentVerifyTicket", "some_verify_ticket")])
  else if body = fastRegisterBody then
    .ok (membersOf [("AppId", "some_appid"), ("CreateTime", "1535442403"),
      ("InfoType", "notify_third_fasteregister")])
  else .error (Error.Foreign "EOF")

/-- A stand-in for `util.AESDecryptMsg` that rejects every ciphertext. -/
def mockAESDecryptMsg (_ciphertext _encodingAESKey : String) :
    (String × String × String) × Option Error :=
  (("", "", ""), some (Error.Foreign "illegal base64 data"))

/-- A cache that refuses to save the refresh token of `wxAUTHORIZER` and
behaves like `mockCache` otherwise. -/
def refreshRejectingCache : Cache MockWorld where
  Fetch := mockCache.Fetch
  Save := fun key value lifeTime w =>
    if key = "authorizer_refresh_token:wxAUTHORIZER" then (some (Error.Foreign "disk full"), w)
    else mockCache.Save key value lifeTime w
  Delete := mockCache.Delete

/-- The mock platform over `refreshRejectingCache`, before the component-token
handler is plugged in. -/
def refreshRejectingBase : Platform MockWorld :=
  { mockBase with
    Cache := refreshRejectingCache
    GetComponentVerifyTicketHandler := GetComponentVerifyTicket refreshRejectingCache mockConfig }

/-- The mock platform over `refreshRejectingCache` with the default handlers. -/
def refreshRejectingPlatform : Platform MockWorld :=
  { refreshRejectingBase with
    GetComponentAccessTokenHandler := fun w =>
      (((GetComponentAccessToken mockNet refreshRejectingBase w).resp,
        (GetComponentAccessToken mockNet refreshRejectingBase w).err),
       (GetComponentAccessToken mockNet refreshRejectingBase w).state) }

/-- The sixteen hexadecimal digits in lower case, by value. -/
def hexDigits : List Char := "0123456789abcdef".toList

/-- The mock platform with an `AesKey` of the length `util.AESDecryptMsg` and
`util.AESEncryptMsg` accept (43 characters). -/
def cryptoPlatform : Platform MockWorld :=
  { mockBase with
    Config := { mockConfig with AesKey := "abcdefghijklmnopqrstuvwxyz0123456789ABCDEFG" } }

/-- A callback body whose payload travels in the element `Encrypt`. -/
def encryptedPushBody : String :=
  "<xml><ToUserName>gh_platform</ToUserName><Encrypt>CIPHERTEXT</Encrypt></xml>"

/-- Decoding of the encrypted body above and of the bodies `mockXMLUnmarshal` knows. -/
def mockXMLUnmarshalEnvelope (body : String) : Except Error XMLMembers :=
  if body = encryptedPushBody then
    .ok (membersOf [("ToUserName", "gh_platform"), ("Encrypt", "CIPHERTEXT")])
  else mockXMLUnmarshal body

/-- A stand-in for `util.AESDecryptMsg`: the ciphertext `CIPHERTEXT` holds the
ticket push, packed by a sender whose app id is `wxFOREIGN`, not the `APPID`
of the mock platforms. -/
def mockAESDecryptForeign (ciphertext _encodingAESKey : String) :
    (String × String × String) × Option Error :=
  if ciphertext = "CIPHERTEXT" then (("0123456789abcdef", ticketPushBody, "wxFOREIGN"), none)
  else (("", "", ""), some (Error.Foreign "illegal base64 data"))

/-- A cache whose `Save` always fails and stores nothing; it reads like `mockCache`. -/
def readOnlyCache : Cache MockWorld where
  Fetch := mockCache.Fetch
  Save := fun _ _ _ w => (some (Error.Foreign "permission denied"), w)
  Delete := mockCache.Delete

/-- The mock platform over the cache whose `Save` fails. -/
def readOnlyPlatform : Platform MockWorld :=
  { mockBase with
    Cache := readOnlyCache
    GetComponentVerifyTicketHandler := GetComponentVerifyTicket readOnlyCache mockConfig }

/-- A stand-in for the digest of `crypto/sha1`: the character codes of the
input modulo 256 (it is not SHA-1). -/
def mockDigest (input : String) : List UInt8 :=
  input.toList.map (fun c => c.toNat.toUInt8)

/-- A stand-in for `util.AESEncryptMsg`: the four arguments side by side. -/
def mockAESEncryptMsg (random rawXMLMsg appID aesKey : String) : String :=
  random ++ "|" ++ rawXMLMsg ++ "|" ++ appID ++ "|" ++ aesKey

/-- A stand-in for `xml.Marshal` on a reply that is a piece of text. -/
def mockMarshal (reply : String) : Except Error String :=
  .ok ("<xml><Content>" ++ reply ++ "</Content></xml>")

/-- A stand-in for `xml.Marshal` on the encrypted envelope. -/
def mockMarshalEnvelope (m : ReplyEncryptMessage) : Except Error String :=
  .ok ("<xml><Encrypt>" ++ m.Encrypt ++ "</Encrypt><MsgSignature>" ++ m.MsgSignature ++
    "</MsgSignature><TimeStamp>" ++ m.TimeStamp ++ "</TimeStamp><Nonce>" ++ m.Nonce ++
    "</Nonce></xml>")

/-- A `writer.Write` that accepts everything. -/
def mockWrite (_output : String) (w : MockWorld) : Option Error × MockWorld := (none, w)

/-- A callback request whose query is `encrypt_type=aes`. -/
def aesRequest : Request :=
  { Method := "POST",
    URL := { Base := "https://example.com/callback",
             RawQuery := [QuerySegment.pair "encrypt_type" "aes"] },
    Header := [] }

/-! ## Lemmas on `responseFilter` and the retry blocks -/

/-- Classification of a 200 answer that was read and decoded without error. -/
theorem responseFilter_decoded (r : Response) (m : EnvelopeMembers)
    (h200 : r.StatusCode = 200) (hread : r.ReadErr = none) (hdec : r.Decoded = .ok m) :
    responseFilter r =
      (r.Body,
        if m.errcode.getD 0 = 42001 ∨ m.errcode.getD 0 = 40001 then
          some ErrorComponentAccessTokenExpire
        else if m.errcode.getD 0 = -1 then some ErrorSystemBusy
        else if m.errcode.getD 0 ≠ 0 then some (Error.New r.Body)
        else none) := by
  simp only [responseFilter, jsonUnmarshalErrorResponse, h200, hread, hdec]
  split_ifs <;> simp_all

/-- The busy block sends nothing unless `err` is `ErrorSystemBusy`. -/
theorem retrySystemBusy_of_ne (net : Net σ) (req : Request) (o : Outcome σ)
    (h : o.err ≠ some ErrorSystemBusy) : Client.retrySystemBusy net req o = o := by
  simp [Client.retrySystemBusy, h]

/-- The busy block sends exactly one request when `err` is `ErrorSystemBusy`. -/
theorem retrySystemBusy_trace_of_busy (net : Net σ) (req : Request) (o : Outcome σ)
    (h : o.err = some ErrorSystemBusy) :
    (Client.retrySystemBusy net req o).trace = o.trace ++ [Event.httpDo req] := by
  unfold Client.retrySystemBusy
  rw [if_pos h]
  split <;> rfl

/-- The busy block adds at most one request to the trace. -/
theorem retrySystemBusy_trace (net : Net σ) (req : Request) (o : Outcome σ) :
    (Client.retrySystemBusy net req o).trace = o.trace ∨
      ((Client.retrySystemBusy net req o).trace = o.trace ++ [Event.httpDo req] ∧
        o.err = some ErrorSystemBusy) := by
  by_cases h : o.err = some ErrorSystemBusy
  · exact Or.inr ⟨retrySystemBusy_trace_of_busy net req o h, h⟩
  · exact Or.inl (by rw [retrySystemBusy_of_ne net req o h])

/-! ## Lemmas on query values -/

/-- Ordered insertion does not change what is stored under any key. -/
theorem lookup_insertByKey (p : String × String) (v : Values) (key : String) :
    Values.lookup (Values.insertByKey p v) key = Values.lookup (p :: v) key := by
  induction v with
  | nil => rfl
  | cons q rest ih =>
    unfold Values.insertByKey
    by_cases hle : p.1 ≤ q.1
    · rw [if_pos hle]
    · rw [if_neg hle]
      have hne : p.1 ≠ q.1 := fun h => hle (h ▸ le_refl p.1)
      have hq : Values.lookup (q :: Values.insertByKey p rest) key =
          Values.lookup [q] key ++ Values.lookup (Values.insertByKey p rest) key := by
        simp [Values.lookup, List.filterMap_cons]
        split <;> simp_all
      rw [hq, ih]
      by_cases hp : p.1 = key
      · have hqk : ¬ q.1 = key := fun h => hne (hp.trans h.symm)
        simp [Values.lookup, List.filterMap_cons, hp, hqk]
      · simp [Values.lookup, List.filterMap_cons, hp]
        split <;> simp_all

/-- Sorting by key does not change what is stored under any key. -/
theorem lookup_sortByKey (v : Values) (key : String) :
    Values.lookup (Values.sortByKey v) key = Values.lookup v key := by
  induction v with
  | nil => rfl
  | cons p rest ih =>
    unfold Values.sortByKey
    rw [lookup_insertByKey]
    simp only [Values.lookup, List.filterMap_cons] at ih ⊢
    rw [ih]

/-- Parsing an encoded query gives back the values that were encoded. -/
theorem lookup_parseQuery_Encode (v : Values) (key : String) :
    Values.lookup (parseQuery (Values.Encode v)) key = Values.lookup v key := by
  have h : parseQuery (Values.Encode v) = Values.sortByKey v := by
    unfold parseQuery Values.Encode
    rw [List.filterMap_map]
    have : ((fun seg => match seg with
        | QuerySegment.pair k x => some (k, x)
        | QuerySegment.malformed _ => none) ∘ fun p : String × String =>
          QuerySegment.pair p.1 p.2) = some := by
      funext p; rfl
    rw [this, List.filterMap_some]
  rw [h, lookup_sortByKey]

/-- After `Set`, the key holds the new value alone. -/
theorem lookup_Set_self (v : Values) (key value : String) :
    Values.lookup (Values.Set v key value) key = [value] := by
  unfold Values.lookup Values.Set
  rw [List.filterMap_append]
  have : List.filterMap (fun p : String × String => if p.1 = key then some p.2 else none)
      (List.filter (fun p => !decide (p.1 = key)) v) = [] := by
    induction v with
    | nil => rfl
    | cons q rest ih =>
      by_cases hq : q.1 = key
      · simp [List.filter_cons, hq]
      · simp [List.filter_cons, hq]
  rw [this]
  simp

/-- After `Set`, every other key holds what it held before. -/
theorem lookup_Set_other (v : Values) (key value other : String) (h : other ≠ key) :
    Values.lookup (Values.Set v key value) other = Values.lookup v other := by
  unfold Values.lookup Values.Set
  rw [List.filterMap_append]
  have hk : ¬ key = other := fun h' => h h'.symm
  have : List.filterMap (fun p : String × String => if p.1 = other then some p.2 else none)
      (List.filter (fun p => !decide (p.1 = key)) v) =
      List.filterMap (fun p : String × String => if p.1 = other then some p.2 else none) v := by
    induction v with
    | nil => rfl
    | cons q rest ih =>
      by_cases hq : q.1 = key
      · have hqo : ¬ q.1 = other := fun h' => h (h'.symm.trans hq)
        simp [List.filter_cons, hq, List.filterMap_cons, hk]; simpa using ih
      · simp only [List.filter_cons, hq, decide_False, Bool.not_false, if_true,
          List.filterMap_cons]
        rw [ih]
  rw [this]
  simp [hk]

/-- The query of the patched request: the token key holds the new token alone,
every other key holds what it held in the original request. -/
theorem patchToken_query (req : Request) (accessToken : String) :
    (Client.patchToken req accessToken).URL.Query.lookup "component_access_token"
        = [accessToken] ∧
      ∀ key, key ≠ "component_access_token" →
        (Client.patchToken req accessToken).URL.Query.lookup key = req.URL.Query.lookup key := by
  constructor
  · show Values.lookup (parseQuery (Values.Encode _)) _ = _
    rw [lookup_parseQuery_Encode, lookup_Set_self]
  · intro key hkey
    show Values.lookup (parseQuery (Values.Encode _)) _ = _
    rw [lookup_parseQuery_Encode, lookup_Set_other _ _ _ _ hkey]

/-! ## Claims on `Client.httpDo` -/

/-- C1 (as amended): one call of `Client.httpDo` sends at most three requests,
whatever the remote end answers and whatever the handlers do; it sends a third
one only when the first answer was classified token-expired, both handlers
succeeded and the answer to the resent request was classified busy, and
otherwise it sends at most two. -/
theorem httpDo_at_most_three_requests (net : Net σ) (ctx : Platform σ) (req : Request) (s : σ) :
    (requestsOf (Client.httpDo net ctx req s).trace).length ≤ 2 ∨
    ((requestsOf (Client.httpDo net ctx req s).trace).length = 3 ∧
      ∃ r1 s1 s2 tok s3 r2 s4,
        net.Do (req.HeaderAdd "User-Agent" UserAgent) s = (.ok r1, s1) ∧
        (responseFilter r1).2 = some ErrorComponentAccessTokenExpire ∧
        ctx.NoticeComponentAccessTokenExpireHandler s1 = (none, s2) ∧
        ctx.GetComponentAccessTokenHandler s2 = ((tok, none), s3) ∧
        net.Do (Client.patchToken (req.HeaderAdd "User-Agent" UserAgent) tok) s3 = (.ok r2, s4) ∧
        (responseFilter r2).2 = some ErrorSystemBusy) := by
  unfold Client.httpDo
  simp only []
  rcases h1 : net.Do (req.HeaderAdd "User-Agent" UserAgent) s with ⟨e1 | r1, s1⟩
  · left; simp [requestsOf]
  · simp only []
    by_cases hx : (responseFilter r1).2 = some ErrorComponentAccessTokenExpire
    · rw [if_pos hx]
      unfold Client.retryTokenExpire
      rcases h2 : ctx.NoticeComponentAccessTokenExpireHandler s1 with ⟨_ | e2, s2⟩
      · simp only []
        rcases h3 : ctx.GetComponentAccessTokenHandler s2 with ⟨⟨tok, _ | e3⟩, s3⟩
        · simp only []
          rcases h4 : net.Do (Client.patchToken (req.HeaderAdd "User-Agent" UserAgent) tok) s3
            with ⟨e4 | r2, s4⟩
          · left; simp [requestsOf]
          · simp only []
            rcases retrySystemBusy_trace net
                (Client.patchToken (req.HeaderAdd "User-Agent" UserAgent) tok)
                { resp := (responseFilter r2).1, err := (responseFilter r2).2, state := s4,
                  trace := [Event.httpDo (req.HeaderAdd "User-Agent" UserAgent),
                    Event.noticeComponentAccessTokenExpire, Event.getComponentAccessToken,
                    Event.httpDo (Client.patchToken (req.HeaderAdd "User-Agent" UserAgent) tok)] }
              with hb | ⟨hb, hbusy⟩
            · left; rw [hb]; simp [requestsOf]
            · right
              refine ⟨by rw [hb]; simp [requestsOf], r1, s1, s2, tok, s3, r2, s4, rfl, hx, h2,
                h3, h4, hbusy⟩
        · left; simp [requestsOf]
      · left; simp [requestsOf]
    · rw [if_neg hx]
      rcases retrySystemBusy_trace net (req.HeaderAdd "User-Agent" UserAgent)
          { resp := (responseFilter r1).1, err := (responseFilter r1).2, state := s1,
            trace := [Event.httpDo (req.HeaderAdd "User-Agent" UserAgent)] }
        with hb | ⟨hb, _⟩
      · left; rw [hb]; simp [requestsOf]
      · left; rw [hb]; simp [requestsOf]

/-- C1 (counterexample): with the first answer `errcode=40001`, the second
`errcode=-1` and both handlers succeeding, one call of `Client.httpDo` sends
three requests, not at most two. -/
theorem httpDo_third_request :
    ¬ (requestsOf (Client.httpDo mockNet mockPlatform mockRequest
        (mockWorld [answerInvalid, answerBusy, answerOk])).trace).length ≤ 2 := by
  decide

/-- C2: when the remote end answers every request with HTTP 200 and
`errcode=42001` and both handlers succeed, one call of `Client.httpDo` sends
exactly two requests (the original one and the patched one) and its results
`resp`, `err` are those of `responseFilter` on the second answer, the error
being `ErrorComponentAccessTokenExpire`. -/
theorem httpDo_always_expired (net : Net σ) (ctx : Platform σ) (req : Request) (s : σ)
    (hremote : ∀ rq st, ∃ r st', net.Do rq st = (.ok r, st') ∧ r.StatusCode = 200 ∧
      r.ReadErr = none ∧ ∃ m, r.Decoded = .ok m ∧ m.errcode = some 42001)
    (hnotice : ∀ st, (ctx.NoticeComponentAccessTokenExpireHandler st).1 = none)
    (htoken : ∀ st, (ctx.GetComponentAccessTokenHandler st).1.2 = none) :
    ∃ r1 s1 tok s3 r2 s4,
      net.Do (req.HeaderAdd "User-Agent" UserAgent) s = (.ok r1, s1) ∧
      ctx.GetComponentAccessTokenHandler (ctx.NoticeComponentAccessTokenExpireHandler s1).2
        = ((tok, none), s3) ∧
      net.Do (Client.patchToken (req.HeaderAdd "User-Agent" UserAgent) tok) s3 = (.ok r2, s4) ∧
      requestsOf (Client.httpDo net ctx req s).trace =
        [req.HeaderAdd "User-Agent" UserAgent,
         Client.patchToken (req.HeaderAdd "User-Agent" UserAgent) tok] ∧
      ((Client.httpDo net ctx req s).resp, (Client.httpDo net ctx req s).err)
        = responseFilter r2 ∧
      (Client.httpDo net ctx req s).resp = r2.Body ∧
      (Client.httpDo net ctx req s).err = some ErrorComponentAccessTokenExpire := by
  have hclass : ∀ r : Response, r.StatusCode = 200 → r.ReadErr = none →
      (∃ m, r.Decoded = .ok m ∧ m.errcode = some 42001) →
      responseFilter r = (r.Body, some ErrorComponentAccessTokenExpire) := by
    intro r h200 hread ⟨m, hdec, hm⟩
    rw [responseFilter_decoded r m h200 hread hdec, hm]
    simp
  obtain ⟨r1, s1, h1, h200, hread, hm⟩ := hremote (req.HeaderAdd "User-Agent" UserAgent) s
  have hf1 := hclass r1 h200 hread hm
  rcases h2 : ctx.NoticeComponentAccessTokenExpireHandler s1 with ⟨e2, s2⟩
  have he2 : e2 = none := by have := hnotice s1; rw [h2] at this; exact this
  subst he2
  rcases h3 : ctx.GetComponentAccessTokenHandler s2 with ⟨⟨tok, e3⟩, s3⟩
  have he3 : e3 = none := by have := htoken s2; rw [h3] at this; exact this
  subst he3
  obtain ⟨r2, s4, h4, h200', hread', hm'⟩ :=
    hremote (Client.patchToken (req.HeaderAdd "User-Agent" UserAgent) tok) s3
  have hf2 := hclass r2 h200' hread' hm'
  have hrun : Client.httpDo net ctx req s =
      { resp := r2.Body, err := some ErrorComponentAccessTokenExpire, state := s4,
        trace := [Event.httpDo (req.HeaderAdd "User-Agent" UserAgent),
          Event.noticeComponentAccessTokenExpire, Event.getComponentAccessToken,
          Event.httpDo (Client.patchToken (req.HeaderAdd "User-Agent" UserAgent) tok)] } := by
    simp only [Client.httpDo, h1, hf1, if_true, Client.retryTokenExpire, h2, h3, h4, hf2]
    rw [retrySystemBusy_of_ne]
    simp
  refine ⟨r1, s1, tok, s3, r2, s4, h1, by rw [h2]; exact h3, h4, ?_, ?_, ?_, ?_⟩
  · rw [hrun]; simp [requestsOf]
  · rw [hrun, hf2]
  · rw [hrun]
  · rw [hrun]

/-- C2 (witness): against the remote end that always answers `errcode=42001`,
the call sends two requests and ends with `ErrorComponentAccessTokenExpire`. -/
theorem httpDo_always_expired_witness :
    (requestsOf (Client.httpDo expiredNet freshPlatform mockRequest (mockWorld [])).trace).length
        = 2 ∧
      (Client.httpDo expiredNet freshPlatform mockRequest (mockWorld [])).err
        = some ErrorComponentAccessTokenExpire := by
  obtain ⟨_, _, _, _, _, _, _, _, _, htrace, _, _, herr⟩ :=
    httpDo_always_expired expiredNet freshPlatform mockRequest (mockWorld [])
      (fun _ st => ⟨answerExpired, st, rfl, rfl, rfl, _, rfl, rfl⟩) (fun _ => rfl) (fun _ => rfl)
  exact ⟨by rw [htrace]; rfl, herr⟩

/-- C3: when the first answer is classified token-expired, `Client.httpDo`
calls `NoticeComponentAccessTokenExpireHandler` and then
`GetComponentAccessTokenHandler`; an error of either handler is returned with
no second request sent; otherwise the next request is the original one with
the same method, the same URL up to the query, and a query in which
`component_access_token` holds exactly the token the handler returned while
every other key holds the values it held before. -/
theorem httpDo_token_expired (net : Net σ) (ctx : Platform σ) (req : Request) (s s1 : σ)
    (r1 : Response)
    (h1 : net.Do (req.HeaderAdd "User-Agent" UserAgent) s = (.ok r1, s1))
    (hexpired : (responseFilter r1).2 = some ErrorComponentAccessTokenExpire) :
    (∀ e s2, ctx.NoticeComponentAccessTokenExpireHandler s1 = (some e, s2) →
      (Client.httpDo net ctx req s).err = some e ∧
      (Client.httpDo net ctx req s).trace =
        [Event.httpDo (req.HeaderAdd "User-Agent" UserAgent),
         Event.noticeComponentAccessTokenExpire]) ∧
    (∀ s2 tok e s3, ctx.NoticeComponentAccessTokenExpireHandler s1 = (none, s2) →
      ctx.GetComponentAccessTokenHandler s2 = ((tok, some e), s3) →
      (Client.httpDo net ctx req s).err = some e ∧
      (Client.httpDo net ctx req s).trace =
        [Event.httpDo (req.HeaderAdd "User-Agent" UserAgent),
         Event.noticeComponentAccessTokenExpire, Event.getComponentAccessToken]) ∧
    (∀ s2 tok s3, ctx.NoticeComponentAccessTokenExpireHandler s1 = (none, s2) →
      ctx.GetComponentAccessTokenHandler s2 = ((tok, none), s3) →
      ∃ req2 later,
        (Client.httpDo net ctx req s).trace =
          [Event.httpDo (req.HeaderAdd "User-Agent" UserAgent),
           Event.noticeComponentAccessTokenExpire, Event.getComponentAccessToken,
           Event.httpDo req2] ++ later ∧
        req2.Method = req.Method ∧ req2.URL.Base = req.URL.Base ∧
        req2.URL.Query.lookup "component_access_token" = [tok] ∧
        ∀ key, key ≠ "component_access_token" →
          req2.URL.Query.lookup key = req.URL.Query.lookup key) := by
  have hrun : Client.httpDo net ctx req s =
      Client.retryTokenExpire net ctx (req.HeaderAdd "User-Agent" UserAgent)
        (responseFilter r1).1 s1 := by
    simp only [Client.httpDo, h1, hexpired, if_true]
  refine ⟨?_, ?_, ?_⟩
  · intro e s2 h2
    rw [hrun]
    simp only [Client.retryTokenExpire, h2, and_self]
  · intro s2 tok e s3 h2 h3
    rw [hrun]
    simp only [Client.retryTokenExpire, h2, h3, and_self]
  · intro s2 tok s3 h2 h3
    have hq := patchToken_query (req.HeaderAdd "User-Agent" UserAgent) tok
    refine ⟨Client.patchToken (req.HeaderAdd "User-Agent" UserAgent) tok, ?_⟩
    rw [hrun]
    simp only [Client.retryTokenExpire, h2, h3]
    rcases h4 : net.Do (Client.patchToken (req.HeaderAdd "User-Agent" UserAgent) tok) s3
      with ⟨e4 | r2, s4⟩
    · exact ⟨[], by simp, rfl, rfl, hq.1, hq.2⟩
    · simp only []
      rcases retrySystemBusy_trace net
          (Client.patchToken (req.HeaderAdd "User-Agent" UserAgent) tok)
          { resp := (responseFilter r2).1, err := (responseFilter r2).2, state := s4,
            trace := [Event.httpDo (req.HeaderAdd "User-Agent" UserAgent),
              Event.noticeComponentAccessTokenExpire, Event.getComponentAccessToken,
              Event.httpDo (Client.patchToken (req.HeaderAdd "User-Agent" UserAgent) tok)] }
        with hb | ⟨hb, _⟩
      · exact ⟨[], by rw [hb]; simp, rfl, rfl, hq.1, hq.2⟩
      · exact ⟨[Event.httpDo (Client.patchToken (req.HeaderAdd "User-Agent" UserAgent) tok)],
          by rw [hb], rfl, rfl, hq.1, hq.2⟩

/-- C3 (witness): on the mock platform an `errcode=42001` answer makes the
call resend the request with the refreshed token `ACCESS_TOKEN` in place of
`OLD`, the parameter `offset` unchanged. -/
theorem httpDo_token_expired_witness :
    ∃ req2 later,
      (Client.httpDo mockNet mockPlatform mockRequest
          (mockWorld [answerExpired, answerOk])).trace =
        [Event.httpDo (mockRequest.HeaderAdd "User-Agent" UserAgent),
         Event.noticeComponentAccessTokenExpire, Event.getComponentAccessToken,
         Event.httpDo req2] ++ later ∧
      req2.URL.Query.lookup "component_access_token" = ["ACCESS_TOKEN"] ∧
      req2.URL.Query.lookup "offset" = ["0"] := by
  obtain ⟨req2, later, ht, _, _, hq, ho⟩ :=
    (httpDo_token_expired mockNet mockPlatform mockRequest
      (mockWorld [answerExpired, answerOk]) _ answerExpired rfl (by decide)).2.2
      _ "ACCESS_TOKEN" _ rfl rfl
  exact ⟨req2, later, ht, hq, by rw [ho "offset" (by decide)]; rfl⟩

/-- C4: when the first answer is a 200 answer with `errcode=-1` and the
answer to the resent request is a 200 answer with `errcode=0`, `Client.httpDo`
returns a nil error and the raw body of the second answer; it sends exactly two
requests, the second identical to the first (same method, same URL with the
same token), and calls no handler. -/
theorem httpDo_busy_then_ok (net : Net σ) (ctx : Platform σ) (req : Request) (s s1 s2 : σ)
    (r1 r2 : Response) (m1 m2 : EnvelopeMembers)
    (h1 : net.Do (req.HeaderAdd "User-Agent" UserAgent) s = (.ok r1, s1))
    (h1status : r1.StatusCode = 200) (h1read : r1.ReadErr = none)
    (h1dec : r1.Decoded = .ok m1) (h1code : m1.errcode = some (-1))
    (h2 : net.Do (req.HeaderAdd "User-Agent" UserAgent) s1 = (.ok r2, s2))
    (h2status : r2.StatusCode = 200) (h2read : r2.ReadErr = none)
    (h2dec : r2.Decoded = .ok m2) (h2code : m2.errcode = some 0) :
    (Client.httpDo net ctx req s).err = none ∧
    (Client.httpDo net ctx req s).resp = r2.Body ∧
    (Client.httpDo net ctx req s).state = s2 ∧
    (Client.httpDo net ctx req s).trace =
      [Event.httpDo (req.HeaderAdd "User-Agent" UserAgent),
       Event.httpDo (req.HeaderAdd "User-Agent" UserAgent)] ∧
    (req.HeaderAdd "User-Agent" UserAgent).Method = req.Method ∧
    (req.HeaderAdd "User-Agent" UserAgent).URL = req.URL := by
  have hf1 : responseFilter r1 = (r1.Body, some ErrorSystemBusy) := by
    rw [responseFilter_decoded r1 m1 h1status h1read h1dec, h1code]; simp
  have hf2 : responseFilter r2 = (r2.Body, none) := by
    rw [responseFilter_decoded r2 m2 h2status h2read h2dec, h2code]; simp
  have hrun : Client.httpDo net ctx req s =
      { resp := r2.Body, err := none, state := s2,
        trace := [Event.httpDo (req.HeaderAdd "User-Agent" UserAgent),
          Event.httpDo (req.HeaderAdd "User-Agent" UserAgent)] } := by
    simp [Client.httpDo, h1, hf1, Client.retrySystemBusy, h2, hf2]
  rw [hrun]
  exact ⟨rfl, rfl, rfl, rfl, rfl, rfl⟩

/-- C4 (witness): on the mock platform a busy answer followed by an ok answer
gives the body of the ok answer and no error. -/
theorem httpDo_busy_then_ok_witness :
    (Client.httpDo mockNet mockPlatform mockRequest (mockWorld [answerBusy, answerOk])).err
        = none ∧
      (Client.httpDo mockNet mockPlatform mockRequest (mockWorld [answerBusy, answerOk])).resp
        = answerOk.Body :=
  have h := httpDo_busy_then_ok mockNet mockPlatform mockRequest
    (mockWorld [answerBusy, answerOk]) _ _ answerBusy answerOk _ _
    rfl rfl rfl rfl rfl rfl rfl rfl rfl rfl
  ⟨h.1, h.2.1⟩

/-- C5: for a 200 answer that decodes to an `errcode` other than 0, -1, 40001
and 42001, `responseFilter` returns an error whose message is the body, and
`Client.httpDo` returns that error (with the body) after exactly one request
and no handler call. -/
theorem httpDo_remote_error (net : Net σ) (ctx : Platform σ) (req : Request) (s s1 : σ)
    (r1 : Response) (m1 : EnvelopeMembers) (c : Int)
    (h1 : net.Do (req.HeaderAdd "User-Agent" UserAgent) s = (.ok r1, s1))
    (hstatus : r1.StatusCode = 200) (hread : r1.ReadErr = none)
    (hdec : r1.Decoded = .ok m1) (hcode : m1.errcode = some c)
    (h0 : c ≠ 0) (hbusy : c ≠ -1) (h40001 : c ≠ 40001) (h42001 : c ≠ 42001) :
    (∃ e, responseFilter r1 = (r1.Body, some e) ∧ e.Message = r1.Body ∧
      (Client.httpDo net ctx req s).err = some e) ∧
    (Client.httpDo net ctx req s).resp = r1.Body ∧
    (Client.httpDo net ctx req s).state = s1 ∧
    (Client.httpDo net ctx req s).trace =
      [Event.httpDo (req.HeaderAdd "User-Agent" UserAgent)] := by
  have hf1 : responseFilter r1 = (r1.Body, some (Error.New r1.Body)) := by
    rw [responseFilter_decoded r1 m1 hstatus hread hdec, hcode]
    simp [h0, hbusy, h40001, h42001]
  have hrun : Client.httpDo net ctx req s =
      { resp := r1.Body, err := some (Error.New r1.Body), state := s1,
        trace := [Event.httpDo (req.HeaderAdd "User-Agent" UserAgent)] } := by
    simp [Client.httpDo, h1, hf1, Client.retrySystemBusy]
  rw [hrun]
  exact ⟨⟨Error.New r1.Body, hf1, rfl, rfl⟩, rfl, rfl, rfl⟩

/-- C5 (witness): the answer `errcode=40013` comes back as an error carrying
the body, after one request. -/
theorem httpDo_remote_error_witness :
    (Client.httpDo mockNet mockPlatform mockRequest (mockWorld [answerInvalidAppid])).err
        = some (Error.New answerInvalidAppid.Body) ∧
      (Client.httpDo mockNet mockPlatform mockRequest (mockWorld [answerInvalidAppid])).trace
        = [Event.httpDo (mockRequest.HeaderAdd "User-Agent" UserAgent)] := by
  obtain ⟨⟨e, hf, _, he⟩, _, _, ht⟩ :=
    httpDo_remote_error mockNet mockPlatform mockRequest (mockWorld [answerInvalidAppid]) _
      answerInvalidAppid _ 40013 rfl rfl rfl rfl rfl (by decide) (by decide) (by decide)
      (by decide)
  have hfe : responseFilter answerInvalidAppid
      = (answerInvalidAppid.Body, some (Error.New answerInvalidAppid.Body)) := by decide
  rw [hfe] at hf
  have : e = Error.New answerInvalidAppid.Body := by
    have h2 := congrArg Prod.snd hf
    simp at h2
    exact h2.symm
  exact ⟨by rw [he, this], ht⟩

/-! ## Claims on `responseFilter` -/

/-- C6: for a 200 answer whose body decodes as a JSON object with `errcode`
equal to 0 or with no `errcode` member, `responseFilter` returns the body
unchanged and a nil error. -/
theorem responseFilter_success (r : Response) (m : EnvelopeMembers)
    (hstatus : r.StatusCode = 200) (hread : r.ReadErr = none) (hdec : r.Decoded = .ok m)
    (hcode : m.errcode = some 0 ∨ m.errcode = none) :
    responseFilter r = (r.Body, none) := by
  rw [responseFilter_decoded r m hstatus hread hdec]
  rcases hcode with h | h <;> rw [h] <;> simp

/-- C6 (witness): the answer without envelope members passes the filter unchanged. -/
theorem responseFilter_success_witness :
    responseFilter answerPlainObject = (answerPlainObject.Body, none) :=
  responseFilter_success answerPlainObject _ rfl rfl rfl (Or.inr rfl)

/-- C7 (as amended): for a 200 answer whose body `json.Unmarshal` rejects,
`responseFilter` returns the raw body together with the decoding error, which
is not nil. -/
theorem responseFilter_not_json (r : Response) (e : Error)
    (hstatus : r.StatusCode = 200) (hread : r.ReadErr = none) (hdec : r.Decoded = .error e) :
    responseFilter r = (r.Body, some e) := by
  simp [responseFilter, jsonUnmarshalErrorResponse, hstatus, hread, hdec]

/-- C7 (witness): the HTML answer comes back with its body and the decoding error. -/
theorem responseFilter_not_json_witness :
    responseFilter answerHtml = (answerHtml.Body,
      some (Error.Foreign "invalid character < looking for beginning of value")) :=
  responseFilter_not_json answerHtml _ rfl rfl rfl

/-- C7 (counterexample): a 200 answer whose body is an HTML page is not
treated as a success, the error returned by `responseFilter` is not nil. -/
theorem responseFilter_html_is_error : (responseFilter answerHtml).2 ≠ none := by
  decide

/-! ## Claims on `GetComponentAccessToken` -/

/-- A first fetch that yields a non-empty token ends the call at once. -/
theorem GetComponentAccessToken_of_hit (net : Net σ) (ctx : Platform σ) (s s1 : σ)
    (t : String) (err : Option Error)
    (hfetch : ctx.Cache.Fetch ctx.Config.AppId s = ((t, err), s1)) (ht : t ≠ "") :
    GetComponentAccessToken net ctx s =
      { resp := t, err := err, state := s1, trace := [Event.cacheFetch ctx.Config.AppId] } := by
  simp [GetComponentAccessToken, hfetch, ht]

/-- C8: when fetching the key `Config.AppId` yields a non-empty token `t`,
`GetComponentAccessToken` returns `t` (with the error the cache returned along
with it) after that single cache fetch: the ticket handler is not called, no
request goes to the refresh endpoint and nothing is saved. -/
theorem GetComponentAccessToken_cache_hit (net : Net σ) (ctx : Platform σ) (s s1 : σ)
    (t : String) (err : Option Error)
    (hfetch : ctx.Cache.Fetch ctx.Config.AppId s = ((t, err), s1)) (ht : t ≠ "") :
    (GetComponentAccessToken net ctx s).resp = t ∧
    (GetComponentAccessToken net ctx s).err = err ∧
    (GetComponentAccessToken net ctx s).state = s1 ∧
    (GetComponentAccessToken net ctx s).trace = [Event.cacheFetch ctx.Config.AppId] := by
  rw [GetComponentAccessToken_of_hit net ctx s s1 t err hfetch ht]
  exact ⟨rfl, rfl, rfl, rfl⟩

/-- C8 (witness): with `ACCESS_TOKEN` cached under `APPID`, the call returns it
after one cache fetch. -/
theorem GetComponentAccessToken_cache_hit_witness :
    (GetComponentAccessToken mockNet mockPlatform
        { mockWorld [] with entries := [("APPID", "ACCESS_TOKEN")] }).resp = "ACCESS_TOKEN" ∧
      (GetComponentAccessToken mockNet mockPlatform
        { mockWorld [] with entries := [("APPID", "ACCESS_TOKEN")] }).trace
        = [Event.cacheFetch "APPID"] :=
  have h := GetComponentAccessToken_cache_hit mockNet mockPlatform
    { mockWorld [] with entries := [("APPID", "ACCESS_TOKEN")] } _ "ACCESS_TOKEN" none
    rfl (by decide)
  ⟨h.1, h.2.2.2⟩

/-- C9: when the cache holds no token (both fetches of `Config.AppId`, before
and after taking `refreshComponentAccessTokenLock`, give the empty string), the ticket handler returns a ticket and the refresh endpoint
answers 200 with a non-empty `component_access_token` `tok`, then
`GetComponentAccessToken` returns `tok` with a nil error after one request to
the refresh endpoint and saves `tok` under `Config.AppId`; and when the cache
gives back what was just saved, the next `GetComponentAccessToken` returns
`tok` after a single cache fetch, without a second request. -/
theorem GetComponentAccessToken_refresh_then_hit (net : Net σ) (ctx : Platform σ)
    (s s1 s2 s3 s4 s5 : σ) (e1 e2 e3 : Option Error) (ticket tok : String)
    (r : TokenResponse) (m : TokenMembers)
    (hfetch1 : ctx.Cache.Fetch ctx.Config.AppId s = (("", e1), s1))
    (hfetch2 : ctx.Cache.Fetch ctx.Config.AppId s1 = (("", e2), s2))
    (hticket : ctx.GetComponentVerifyTicketHandler s2 = ((ticket, none), s3))
    (hpost : net.Post (WXServerUrl ++ "/cgi-bin/component/api_component_token")
        "application/json;charset=utf-8"
        { ComponentAppid := ctx.Config.AppId, ComponentAppsecret := ctx.Config.AppSecret,
          ComponentVerifyTicket := ticket } s3 = (.ok r, s4))
    (hstatus : r.StatusCode = 200) (hread : r.ReadErr = none) (hdec : r.Decoded = .ok m)
    (htok : m.component_access_token = some tok) (hne : tok ≠ "")
    (hcache : ctx.Cache.Fetch ctx.Config.AppId
        (ctx.Cache.Save ctx.Config.AppId tok
          (wrapInt64 (wrapInt64 (m.expires_in.getD 0) * timeSecond)) s4).2 = ((tok, e3), s5)) :
    (GetComponentAccessToken net ctx s).resp = tok ∧
    (GetComponentAccessToken net ctx s).err = none ∧
    (GetComponentAccessToken net ctx s).trace =
      [Event.cacheFetch ctx.Config.AppId,
       Event.lock Mutex.refreshComponentAccessTokenLock,
       Event.cacheFetch ctx.Config.AppId,
       Event.getComponentVerifyTicket,
       Event.httpPost (WXServerUrl ++ "/cgi-bin/component/api_component_token")
        "application/json;charset=utf-8"
        { ComponentAppid := ctx.Config.AppId, ComponentAppsecret := ctx.Config.AppSecret,
          ComponentVerifyTicket := ticket },
       Event.cacheSave ctx.Config.AppId tok
        (wrapInt64 (wrapInt64 (m.expires_in.getD 0) * timeSecond)),
       Event.unlock Mutex.refreshComponentAccessTokenLock] ∧
    (GetComponentAccessToken net ctx (GetComponentAccessToken net ctx s).state).resp = tok ∧
    (GetComponentAccessToken net ctx (GetComponentAccessToken net ctx s).state).trace =
      [Event.cacheFetch ctx.Config.AppId] := by
  have hrefresh : refreshComponentAccessToken net ctx.Config.AppId ctx.Config.AppSecret ticket s3 =
      { accessToken := tok, expiresIn := m.expires_in.getD 0, err := none, state := s4,
        trace := [Event.httpPost (WXServerUrl ++ "/cgi-bin/component/api_component_token")
          "application/json;charset=utf-8"
          { ComponentAppid := ctx.Config.AppId, ComponentAppsecret := ctx.Config.AppSecret,
            ComponentVerifyTicket := ticket }] } := by
    simp [refreshComponentAccessToken, hpost, hstatus, hread, jsonUnmarshalTokenResult, hdec,
      htok, hne]
  have hrun : GetComponentAccessToken net ctx s =
      { resp := tok, err := none,
        state := (ctx.Cache.Save ctx.Config.AppId tok
          (wrapInt64 (wrapInt64 (m.expires_in.getD 0) * timeSecond)) s4).2,
        trace := [Event.cacheFetch ctx.Config.AppId,
          Event.lock Mutex.refreshComponentAccessTokenLock,
          Event.cacheFetch ctx.Config.AppId,
          Event.getComponentVerifyTicket,
          Event.httpPost (WXServerUrl ++ "/cgi-bin/component/api_component_token")
            "application/json;charset=utf-8"
            { ComponentAppid := ctx.Config.AppId, ComponentAppsecret := ctx.Config.AppSecret,
              ComponentVerifyTicket := ticket },
          Event.cacheSave ctx.Config.AppId tok
            (wrapInt64 (wrapInt64 (m.expires_in.getD 0) * timeSecond)),
          Event.unlock Mutex.refreshComponentAccessTokenLock] } := by
    simp [GetComponentAccessToken, hfetch1, hfetch2, hticket, hrefresh]
  have hsecond := GetComponentAccessToken_of_hit net ctx _ s5 tok e3 hcache hne
  rw [hrun]
  simp only [hsecond, and_self]

/-- C9 (witness): the scenario of `test.Setup`: the first call refreshes and
returns `ACCESS_TOKEN`, the second call returns it from the cache. -/
theorem GetComponentAccessToken_refresh_then_hit_witness :
    (GetComponentAccessToken mockNet mockPlatform (mockWorld [])).resp = "ACCESS_TOKEN" ∧
      (GetComponentAccessToken mockNet mockPlatform (mockWorld [])).err = none ∧
      (GetComponentAccessToken mockNet mockPlatform
        (GetComponentAccessToken mockNet mockPlatform (mockWorld [])).state).resp
        = "ACCESS_TOKEN" ∧
      (GetComponentAccessToken mockNet mockPlatform
        (GetComponentAccessToken mockNet mockPlatform (mockWorld [])).state).trace
        = [Event.cacheFetch "APPID"] :=
  have h := GetComponentAccessToken_refresh_then_hit mockNet mockPlatform
    (mockWorld []) _ _ _ _ _ _ _ none "TICKET" "ACCESS_TOKEN" mockRefresh _
    rfl rfl rfl rfl rfl rfl rfl rfl (by decide) rfl
  ⟨h.1, h.2.1, h.2.2.2.1, h.2.2.2.2⟩

/-- C10 (the code at the failing input): for the refresh answer of
`test.Setup`, which declares `expires_in` 7200, `GetComponentAccessToken`
saves the token with a lifetime of 7200 seconds, the full declared lifetime,
and not with 0.9 * 7200 = 6480 seconds. -/
theorem GetComponentAccessToken_saves_full_lifetime :
    savesOf (GetComponentAccessToken mockNet mockPlatform (mockWorld [])).trace
        = [("APPID", "ACCESS_TOKEN", 7200 * timeSecond)] ∧
      savesOf (GetComponentAccessToken mockNet mockPlatform (mockWorld [])).trace
        ≠ [("APPID", "ACCESS_TOKEN", 6480 * timeSecond)] := by
  decide

/-- The refresh function makes exactly one call, the POST; its state is the one
the transport leaves behind. -/
theorem refreshComponentAccessToken_calls (net : Net σ) (appid secret ticket : String) (s : σ) :
    (refreshComponentAccessToken net appid secret ticket s).trace =
        [Event.httpPost (WXServerUrl ++ "/cgi-bin/component/api_component_token")
          "application/json;charset=utf-8"
          { ComponentAppid := appid, ComponentAppsecret := secret,
            ComponentVerifyTicket := ticket }] ∧
      (refreshComponentAccessToken net appid secret ticket s).state =
        (net.Post (WXServerUrl ++ "/cgi-bin/component/api_component_token")
          "application/json;charset=utf-8"
          { ComponentAppid := appid, ComponentAppsecret := secret,
            ComponentVerifyTicket := ticket } s).2 := by
  unfold refreshComponentAccessToken
  simp only []
  rcases hp : net.Post (WXServerUrl ++ "/cgi-bin/component/api_component_token")
      "application/json;charset=utf-8"
      { ComponentAppid := appid, ComponentAppsecret := secret,
        ComponentVerifyTicket := ticket } s with ⟨e | r, s1⟩
  · exact ⟨rfl, rfl⟩
  · simp only []
    split_ifs
    · exact ⟨rfl, rfl⟩
    · split
      · exact ⟨rfl, rfl⟩
      · split
        · exact ⟨rfl, rfl⟩
        · split_ifs <;> exact ⟨rfl, rfl⟩

/-- When the refresh fails, the access token it returns is empty. -/
theorem refreshComponentAccessToken_error (net : Net σ) (appid secret ticket : String) (s : σ)
    (h : (refreshComponentAccessToken net appid secret ticket s).err ≠ none) :
    (refreshComponentAccessToken net appid secret ticket s).accessToken = "" := by
  revert h
  unfold refreshComponentAccessToken
  simp only []
  split
  · intro _; rfl
  · split_ifs
    · intro _; rfl
    · split
      · intro _; rfl
      · split
        · intro _; rfl
        · split_ifs
          · intro _; rfl
          · intro h; exact absurd rfl h

/-- C11: when the cache holds no component token (both fetches of
`Config.AppId` give the empty string) and no ticket (the fetch of the ticket
key by the default handler `GetComponentVerifyTicket` fails),
`GetComponentAccessToken` returns the empty token together with that error; it
sends nothing to the refresh endpoint and saves nothing. -/
theorem GetComponentAccessToken_no_ticket (net : Net σ) (ctx : Platform σ)
    (s s1 s2 s3 : σ) (e1 e2 : Option Error) (t : String) (e : Error)
    (hfetch1 : ctx.Cache.Fetch ctx.Config.AppId s = (("", e1), s1))
    (hfetch2 : ctx.Cache.Fetch ctx.Config.AppId s1 = (("", e2), s2))
    (hhandler : ctx.GetComponentVerifyTicketHandler =
      GetComponentVerifyTicket ctx.Cache ctx.Config)
    (hticket : ctx.Cache.Fetch ("component_verify_ticket :" ++ ctx.Config.AppId) s2
      = ((t, some e), s3)) :
    (GetComponentAccessToken net ctx s).resp = "" ∧
    (GetComponentAccessToken net ctx s).err = some e ∧
    postsOf (GetComponentAccessToken net ctx s).trace = [] ∧
    savesOf (GetComponentAccessToken net ctx s).trace = [] ∧
    (GetComponentAccessToken net ctx s).trace =
      [Event.cacheFetch ctx.Config.AppId,
       Event.lock Mutex.refreshComponentAccessTokenLock,
       Event.cacheFetch ctx.Config.AppId,
       Event.getComponentVerifyTicket,
       Event.unlock Mutex.refreshComponentAccessTokenLock] := by
  have hcall : ctx.GetComponentVerifyTicketHandler s2 = ((t, some e), s3) := by
    rw [hhandler]; exact hticket
  have hrun : GetComponentAccessToken net ctx s =
      { resp := "", err := some e, state := s3,
        trace := [Event.cacheFetch ctx.Config.AppId,
          Event.lock Mutex.refreshComponentAccessTokenLock,
          Event.cacheFetch ctx.Config.AppId,
          Event.getComponentVerifyTicket,
          Event.unlock Mutex.refreshComponentAccessTokenLock] } := by
    simp [GetComponentAccessToken, hfetch1, hfetch2, hcall]
  rw [hrun]
  exact ⟨rfl, rfl, rfl, rfl, rfl⟩

/-- C11 (witness): on the mock platform with nothing cached, the call fails
with the error of the ticket fetch and sends no refresh request. -/
theorem GetComponentAccessToken_no_ticket_witness :
    (GetComponentAccessToken mockNet mockPlatform mockEmptyWorld).resp = "" ∧
      (GetComponentAccessToken mockNet mockPlatform mockEmptyWorld).err
        = some (Error.Foreign "cache expired") ∧
      postsOf (GetComponentAccessToken mockNet mockPlatform mockEmptyWorld).trace = [] :=
  have h := GetComponentAccessToken_no_ticket mockNet mockPlatform mockEmptyWorld
    _ _ _ _ _ "" (Error.Foreign "cache expired") rfl rfl rfl rfl
  ⟨h.1, h.2.1, h.2.2.1⟩

/-- C12: whenever `GetComponentAccessToken` returns a non-nil error it has
called no cache `Save`; and for every observation `content` of the world that
cache fetches, the ticket handler and the refresh request leave unchanged, the
content after the call is the content before it. -/
theorem GetComponentAccessToken_error_no_save {κ : Type} (net : Net σ) (ctx : Platform σ)
    (s : σ) (content : σ → κ)
    (hfetch : ∀ key st, content (ctx.Cache.Fetch key st).2 = content st)
    (hticket : ∀ st, content (ctx.GetComponentVerifyTicketHandler st).2 = content st)
    (hpost : ∀ url contentType payload st,
      content (net.Post url contentType payload st).2 = content st)
    (herr : (GetComponentAccessToken net ctx s).err ≠ none) :
    savesOf (GetComponentAccessToken net ctx s).trace = [] ∧
    content (GetComponentAccessToken net ctx s).state = content s := by
  rcases hf1 : ctx.Cache.Fetch ctx.Config.AppId s with ⟨⟨t1, e1⟩, s1⟩
  have hc1 : content s1 = content s := by
    have := hfetch ctx.Config.AppId s; rw [hf1] at this; exact this
  by_cases ht1 : t1 = ""
  · subst ht1
    rcases hf2 : ctx.Cache.Fetch ctx.Config.AppId s1 with ⟨⟨t2, e2⟩, s2⟩
    have hc2 : content s2 = content s := by
      have := hfetch ctx.Config.AppId s1; rw [hf2] at this; rw [this, hc1]
    by_cases ht2 : t2 = ""
    · subst ht2
      rcases hk : ctx.GetComponentVerifyTicketHandler s2 with ⟨⟨ticket, _ | e3⟩, s3⟩
      · have hc3 : content s3 = content s := by
          have := hticket s2; rw [hk] at this; rw [this, hc2]
        obtain ⟨hrt, hrs⟩ := refreshComponentAccessToken_calls net ctx.Config.AppId
          ctx.Config.AppSecret ticket s3
        rcases hre : (refreshComponentAccessToken net ctx.Config.AppId ctx.Config.AppSecret
            ticket s3).err with _ | e4
        · exfalso
          apply herr
          simp [GetComponentAccessToken, hf1, hf2, hk, hre]
        · have hrun : GetComponentAccessToken net ctx s =
              { resp := (refreshComponentAccessToken net ctx.Config.AppId ctx.Config.AppSecret
                  ticket s3).accessToken,
                err := some e4,
                state := (refreshComponentAccessToken net ctx.Config.AppId
                  ctx.Config.AppSecret ticket s3).state,
                trace := [Event.cacheFetch ctx.Config.AppId,
                  Event.lock Mutex.refreshComponentAccessTokenLock,
                  Event.cacheFetch ctx.Config.AppId,
                  Event.getComponentVerifyTicket] ++
                  (refreshComponentAccessToken net ctx.Config.AppId ctx.Config.AppSecret
                    ticket s3).trace ++
                  [Event.unlock Mutex.refreshComponentAccessTokenLock] } := by
            simp [GetComponentAccessToken, hf1, hf2, hk, hre]
          rw [hrun]
          refine ⟨?_, ?_⟩
          · simp only [hrt]; rfl
          · simp only [hrs, hpost, hc3]
      · have hc3 : content s3 = content s := by
          have := hticket s2; rw [hk] at this; rw [this, hc2]
        have hrun : GetComponentAccessToken net ctx s =
            { resp := "", err := some e3, state := s3,
              trace := [Event.cacheFetch ctx.Config.AppId,
                Event.lock Mutex.refreshComponentAccessTokenLock,
                Event.cacheFetch ctx.Config.AppId,
                Event.getComponentVerifyTicket,
                Event.unlock Mutex.refreshComponentAccessTokenLock] } := by
          simp [GetComponentAccessToken, hf1, hf2, hk]
        rw [hrun]
        exact ⟨rfl, hc3⟩
    · have hrun : GetComponentAccessToken net ctx s =
          { resp := t2, err := e2, state := s2,
            trace := [Event.cacheFetch ctx.Config.AppId,
              Event.lock Mutex.refreshComponentAccessTokenLock,
              Event.cacheFetch ctx.Config.AppId,
              Event.unlock Mutex.refreshComponentAccessTokenLock] } := by
        simp [GetComponentAccessToken, hf1, hf2, ht2]
      rw [hrun]
      exact ⟨rfl, hc2⟩
  · rw [GetComponentAccessToken_of_hit net ctx s s1 t1 e1 hf1 ht1]
    exact ⟨rfl, hc1⟩

/-- C12 (witness): the failing call on the mock platform with nothing cached
saves nothing and leaves the cache entries as they were. -/
theorem GetComponentAccessToken_error_no_save_witness :
    savesOf (GetComponentAccessToken mockNet mockPlatform mockEmptyWorld).trace = [] ∧
      (GetComponentAccessToken mockNet mockPlatform mockEmptyWorld).state.entries
        = mockEmptyWorld.entries :=
  GetComponentAccessToken_error_no_save mockNet mockPlatform mockEmptyWorld MockWorld.entries
    (fun key st => by
      show (mockCache.Fetch key st).2.entries = st.entries
      unfold mockCache
      simp only []
      split <;> rfl)
    (fun st => by
      show (mockCache.Fetch _ st).2.entries = st.entries
      unfold mockCache
      simp only []
      split <;> rfl)
    (fun _ _ _ _ => rfl)
    (by decide)

/-! ## Claims on `NoticeComponentAccessTokenExpire` -/

/-- C13 (as amended): `NoticeComponentAccessTokenExpire` deletes the key
`Config.AppId` and returns the error of that `Delete`.  When it returns nil and
the cache then holds no entry under `Config.AppId` (both fetches give the
empty string), the next `GetComponentAccessToken` does not answer from the
cache: it reads the ticket, and if the ticket handler returns no error its next
call is the request to the refresh endpoint, while if the ticket handler fails
it returns that error and sends no request. -/
theorem NoticeComponentAccessTokenExpire_forces_refresh (net : Net σ) (ctx : Platform σ)
    (s s1 s2 s3 : σ) (e1 e2 : Option Error)
    (hdelete : ctx.Cache.Delete ctx.Config.AppId s = (none, s1))
    (hfetch1 : ctx.Cache.Fetch ctx.Config.AppId s1 = (("", e1), s2))
    (hfetch2 : ctx.Cache.Fetch ctx.Config.AppId s2 = (("", e2), s3)) :
    NoticeComponentAccessTokenExpire ctx s = (none, s1, [Event.cacheDelete ctx.Config.AppId]) ∧
    (∀ t e s4, ctx.GetComponentVerifyTicketHandler s3 = ((t, some e), s4) →
      (GetComponentAccessToken net ctx s1).err = some e ∧
      (GetComponentAccessToken net ctx s1).resp = "" ∧
      (GetComponentAccessToken net ctx s1).trace =
        [Event.cacheFetch ctx.Config.AppId,
         Event.lock Mutex.refreshComponentAccessTokenLock,
         Event.cacheFetch ctx.Config.AppId,
         Event.getComponentVerifyTicket,
         Event.unlock Mutex.refreshComponentAccessTokenLock]) ∧
    (∀ t s4, ctx.GetComponentVerifyTicketHandler s3 = ((t, none), s4) →
      ∃ later,
        (GetComponentAccessToken net ctx s1).trace =
          [Event.cacheFetch ctx.Config.AppId,
           Event.lock Mutex.refreshComponentAccessTokenLock,
           Event.cacheFetch ctx.Config.AppId,
           Event.getComponentVerifyTicket,
           Event.httpPost (WXServerUrl ++ "/cgi-bin/component/api_component_token")
             "application/json;charset=utf-8"
             { ComponentAppid := ctx.Config.AppId, ComponentAppsecret := ctx.Config.AppSecret,
               ComponentVerifyTicket := t }] ++ later) := by
  refine ⟨?_, ?_, ?_⟩
  · simp [NoticeComponentAccessTokenExpire, hdelete]
  · intro t e s4 hk
    have hrun : GetComponentAccessToken net ctx s1 =
        { resp := "", err := some e, state := s4,
          trace := [Event.cacheFetch ctx.Config.AppId,
            Event.lock Mutex.refreshComponentAccessTokenLock,
            Event.cacheFetch ctx.Config.AppId,
            Event.getComponentVerifyTicket,
            Event.unlock Mutex.refreshComponentAccessTokenLock] } := by
      simp [GetComponentAccessToken, hfetch1, hfetch2, hk]
    rw [hrun]
    exact ⟨rfl, rfl, rfl⟩
  · intro t s4 hk
    obtain ⟨hrt, _⟩ := refreshComponentAccessToken_calls net ctx.Config.AppId
      ctx.Config.AppSecret t s4
    rcases hre : (refreshComponentAccessToken net ctx.Config.AppId ctx.Config.AppSecret
        t s4).err with _ | e4
    · refine ⟨[Event.cacheSave ctx.Config.AppId
          (refreshComponentAccessToken net ctx.Config.AppId ctx.Config.AppSecret t s4).accessToken
          (wrapInt64 (wrapInt64 (refreshComponentAccessToken net ctx.Config.AppId
            ctx.Config.AppSecret t s4).expiresIn * timeSecond)),
          Event.unlock Mutex.refreshComponentAccessTokenLock], ?_⟩
      simp [GetComponentAccessToken, hfetch1, hfetch2, hk, hre, hrt]
    · refine ⟨[Event.unlock Mutex.refreshComponentAccessTokenLock], ?_⟩
      simp [GetComponentAccessToken, hfetch1, hfetch2, hk, hre, hrt]

/-- C13 (witness): on the mock platform with `ACCESS_TOKEN` cached and the
ticket present, invalidation makes the next call go to the refresh endpoint. -/
theorem NoticeComponentAccessTokenExpire_forces_refresh_witness :
    postsOf (GetComponentAccessToken mockNet mockPlatform
      (NoticeComponentAccessTokenExpire mockPlatform
        (GetComponentAccessToken mockNet mockPlatform (mockWorld [])).state).2.1).trace
      = [(WXServerUrl ++ "/cgi-bin/component/api_component_token",
          "application/json;charset=utf-8",
          { ComponentAppid := "APPID", ComponentAppsecret := "SECRET",
            ComponentVerifyTicket := "TICKET" })] := by
  have h := NoticeComponentAccessTokenExpire_forces_refresh mockNet mockPlatform
    (GetComponentAccessToken mockNet mockPlatform (mockWorld [])).state _ _ _ _ _ rfl rfl rfl
  rw [h.1]
  decide

/-- C13 (counterexample): with a token cached and no ticket ever received,
`NoticeComponentAccessTokenExpire` returns nil and the next
`GetComponentAccessToken` fails on the ticket without any request to the
refresh endpoint. -/
theorem NoticeComponentAccessTokenExpire_then_no_refresh :
    (NoticeComponentAccessTokenExpire mockPlatform mockTicketlessWorld).1 = none ∧
      (GetComponentAccessToken mockNet mockPlatform
        (NoticeComponentAccessTokenExpire mockPlatform mockTicketlessWorld).2.1).err ≠ none ∧
      postsOf (GetComponentAccessToken mockNet mockPlatform
        (NoticeComponentAccessTokenExpire mockPlatform mockTicketlessWorld).2.1).trace = [] := by
  decide

/-! ## Claims on `NoticeAuthorizerAccessTokenExpire` -/

/-- The events of `Client.httpDo` are requests and calls of the token handlers. -/
theorem httpDo_events (net : Net σ) (ctx : Platform σ) (req : Request) (s : σ) :
    ∀ ev ∈ (Client.httpDo net ctx req s).trace, ev.isClientCall = true := by
  unfold Client.httpDo
  simp only []
  rcases h1 : net.Do (req.HeaderAdd "User-Agent" UserAgent) s with ⟨e1 | r1, s1⟩
  · simp [Event.isClientCall]
  · simp only []
    by_cases hx : (responseFilter r1).2 = some ErrorComponentAccessTokenExpire
    · rw [if_pos hx]
      unfold Client.retryTokenExpire
      rcases h2 : ctx.NoticeComponentAccessTokenExpireHandler s1 with ⟨_ | e2, s2⟩
      · simp only []
        rcases h3 : ctx.GetComponentAccessTokenHandler s2 with ⟨⟨tok, _ | e3⟩, s3⟩
        · simp only []
          rcases h4 : net.Do (Client.patchToken (req.HeaderAdd "User-Agent" UserAgent) tok) s3
            with ⟨e4 | r2, s4⟩
          · simp [Event.isClientCall]
          · simp only []
            rcases retrySystemBusy_trace net
                (Client.patchToken (req.HeaderAdd "User-Agent" UserAgent) tok)
                { resp := (responseFilter r2).1, err := (responseFilter r2).2, state := s4,
                  trace := [Event.httpDo (req.HeaderAdd "User-Agent" UserAgent),
                    Event.noticeComponentAccessTokenExpire, Event.getComponentAccessToken,
                    Event.httpDo (Client.patchToken (req.HeaderAdd "User-Agent" UserAgent) tok)] }
              with hb | ⟨hb, _⟩
            · rw [hb]; simp [Event.isClientCall]
            · rw [hb]; simp [Event.isClientCall]
        · simp [Event.isClientCall]
      · simp [Event.isClientCall]
    · rw [if_neg hx]
      rcases retrySystemBusy_trace net (req.HeaderAdd "User-Agent" UserAgent)
          { resp := (responseFilter r1).1, err := (responseFilter r1).2, state := s1,
            trace := [Event.httpDo (req.HeaderAdd "User-Agent" UserAgent)] }
        with hb | ⟨hb, _⟩
      · rw [hb]; simp [Event.isClientCall]
      · rw [hb]; simp [Event.isClientCall]

/-- The trace of `Client.HTTPPost` starts with the call of the token handler,
and all its events are requests and calls of the token handlers. -/
theorem HTTPPost_events (NewRequest : String → String → Except Error Request) (net : Net σ)
    (ctx : Platform σ) (uri contentType : String) (s : σ) :
    ∃ later, (Client.HTTPPost NewRequest net ctx uri contentType s).trace =
        Event.getComponentAccessToken :: later ∧
      ∀ ev ∈ later, ev.isClientCall = true := by
  have ha : (Client.applyComponentAccessToken ctx uri s).trace
      = [Event.getComponentAccessToken] := by
    unfold Client.applyComponentAccessToken
    split
    · rfl
    · split_ifs <;> rfl
  unfold Client.HTTPPost
  simp only []
  split
  · exact ⟨[], by rw [ha], by simp⟩
  · split
    · exact ⟨[], by rw [ha], by simp⟩
    · rename_i req _
      exact ⟨_, by rw [ha]; rfl, httpDo_events net ctx _ _⟩

/-- A trace of client calls contains no cache write. -/
theorem savesOf_clientCalls (trace : List Event)
    (h : ∀ ev ∈ trace, ev.isClientCall = true) : savesOf trace = [] := by
  induction trace with
  | nil => rfl
  | cons ev rest ih =>
    have hev := h ev (List.mem_cons_self _ _)
    have hrest := ih (fun x hx => h x (List.mem_cons_of_mem _ hx))
    cases ev <;> simp_all [savesOf, Event.isClientCall]

/-- The request builder `Client.HTTPPost` writes nothing to the cache itself. -/
theorem savesOf_HTTPPost (NewRequest : String → String → Except Error Request) (net : Net σ)
    (ctx : Platform σ) (uri contentType : String) (s : σ) :
    savesOf (Client.HTTPPost NewRequest net ctx uri contentType s).trace = [] := by
  obtain ⟨later, ht, hl⟩ := HTTPPost_events NewRequest net ctx uri contentType s
  rw [ht]
  apply savesOf_clientCalls
  intro ev hev
  rcases List.mem_cons.mp hev with h | h
  · rw [h]; rfl
  · exact hl ev h

/-- The cache writes of a trace that is split in two. -/
theorem savesOf_append (l1 l2 : List Event) : savesOf (l1 ++ l2) = savesOf l1 ++ savesOf l2 := by
  unfold savesOf
  rw [List.filterMap_append]

/-- The two cache keys of one account differ. -/
theorem authorizer_keys_ne (appid : String) :
    "authorizer_access_token:" ++ appid ≠ "authorizer_refresh_token:" ++ appid := by
  intro h
  have hlen := congrArg String.length h
  rw [String.length_append, String.length_append] at hlen
  have h1 : "authorizer_access_token:".length = 24 := by decide
  have h2 : "authorizer_refresh_token:".length = 25 := by decide
  omega

/-- C14 (as amended): in every successful run of
`NoticeAuthorizerAccessTokenExpire` the cache write of the new access token
(key `authorizer_access_token:<appid>`) happens before the cache write of the
new refresh token (key `authorizer_refresh_token:<appid>`): they are the last
two calls before `Unlock`, and the second `Save` acts on the cache the first
one left.  Consequently, when the second write fails, the run returns that
error after the new access token has already been written, without the new
refresh token. -/
theorem NoticeAuthorizerAccessTokenExpire_write_order
    (NewRequest : String → String → Except Error Request)
    (Unmarshal : String → Except Error AuthorizerTokenMembers) (net : Net σ)
    (ctx : Platform σ) (appid : String) (s : σ) :
    ((NoticeAuthorizerAccessTokenExpire NewRequest Unmarshal net ctx appid s).err = none →
      ∃ earlier a r before,
        (NoticeAuthorizerAccessTokenExpire NewRequest Unmarshal net ctx appid s).trace =
          earlier ++
            [Event.cacheSave ("authorizer_access_token:" ++ appid) a 0,
             Event.cacheSave ("authorizer_refresh_token:" ++ appid) r 0,
             Event.unlock Mutex.noticeAuthorizerAccessTokenExpireLock] ∧
        (ctx.Cache.Save ("authorizer_access_token:" ++ appid) a 0 before).1 = none ∧
        (ctx.Cache.Save ("authorizer_refresh_token:" ++ appid) r 0
          (ctx.Cache.Save ("authorizer_access_token:" ++ appid) a 0 before).2).1 = none ∧
        (NoticeAuthorizerAccessTokenExpire NewRequest Unmarshal net ctx appid s).state =
          (ctx.Cache.Save ("authorizer_refresh_token:" ++ appid) r 0
            (ctx.Cache.Save ("authorizer_access_token:" ++ appid) a 0 before).2).2) ∧
    (∀ old s1 m e s3 s4,
      ctx.Cache.Fetch ("authorizer_refresh_token:" ++ appid) s = ((old, none), s1) →
      (Client.HTTPPost NewRequest net ctx "/cgi-bin/component/api_authorizer_token"
        "application/json;charset=utf-8" s1).err = none →
      Unmarshal (Client.HTTPPost NewRequest net ctx "/cgi-bin/component/api_authorizer_token"
        "application/json;charset=utf-8" s1).resp = .ok m →
      ctx.Cache.Save ("authorizer_access_token:" ++ appid)
        (m.authorizer_access_token.getD "") 0
        (Client.HTTPPost NewRequest net ctx "/cgi-bin/component/api_authorizer_token"
          "application/json;charset=utf-8" s1).state = (none, s3) →
      ctx.Cache.Save ("authorizer_refresh_token:" ++ appid)
        (m.authorizer_refresh_token.getD "") 0 s3 = (some e, s4) →
      (NoticeAuthorizerAccessTokenExpire NewRequest Unmarshal net ctx appid s).err = some e ∧
      (NoticeAuthorizerAccessTokenExpire NewRequest Unmarshal net ctx appid s).state = s4 ∧
      ∃ earlier,
        (NoticeAuthorizerAccessTokenExpire NewRequest Unmarshal net ctx appid s).trace =
          earlier ++
            [Event.cacheSave ("authorizer_access_token:" ++ appid)
               (m.authorizer_access_token.getD "") 0,
             Event.cacheSave ("authorizer_refresh_token:" ++ appid)
               (m.authorizer_refresh_token.getD "") 0,
             Event.unlock Mutex.noticeAuthorizerAccessTokenExpireLock]) := by
  constructor
  · unfold NoticeAuthorizerAccessTokenExpire
    rcases hf : ctx.Cache.Fetch ("authorizer_refresh_token:" ++ appid) s with
      ⟨⟨old, _ | e⟩, s1⟩
    · simp only []
      rcases hpe : (Client.HTTPPost NewRequest net ctx
          "/cgi-bin/component/api_authorizer_token" "application/json;charset=utf-8" s1).err
        with _ | e2
      · simp only []
        rcases hu : Unmarshal (Client.HTTPPost NewRequest net ctx
            "/cgi-bin/component/api_authorizer_token" "application/json;charset=utf-8" s1).resp
          with e3 | m
        · simp
        · simp only []
          rcases hs1 : ctx.Cache.Save ("authorizer_access_token:" ++ appid)
              (m.authorizer_access_token.getD "") 0
              (Client.HTTPPost NewRequest net ctx "/cgi-bin/component/api_authorizer_token"
                "application/json;charset=utf-8" s1).state with ⟨_ | e4, s3⟩
          · simp only []
            intro hnil
            refine ⟨_, m.authorizer_access_token.getD "", m.authorizer_refresh_token.getD "",
              (Client.HTTPPost NewRequest net ctx "/cgi-bin/component/api_authorizer_token"
                "application/json;charset=utf-8" s1).state, rfl, ?_, ?_, ?_⟩
            · rw [hs1]
            · rw [hs1]; exact hnil
            · rw [hs1]
          · simp
      · simp
    · simp
  · intro old s1 m e s3 s4 hf hpe hu hs1 hs2
    have hrun : NoticeAuthorizerAccessTokenExpire NewRequest Unmarshal net ctx appid s =
        { err := some e, state := s4,
          trace := [Event.lock Mutex.noticeAuthorizerAccessTokenExpireLock,
              Event.cacheFetch ("authorizer_refresh_token:" ++ appid)] ++
            (Client.HTTPPost NewRequest net ctx "/cgi-bin/component/api_authorizer_token"
              "application/json;charset=utf-8" s1).trace ++
            [Event.cacheSave ("authorizer_access_token:" ++ appid)
               (m.authorizer_access_token.getD "") 0,
             Event.cacheSave ("authorizer_refresh_token:" ++ appid)
               (m.authorizer_refresh_token.getD "") 0,
             Event.unlock Mutex.noticeAuthorizerAccessTokenExpireLock] } := by
      simp only [NoticeAuthorizerAccessTokenExpire, hf, hpe, hu, hs1, hs2]
    rw [hrun]
    exact ⟨rfl, rfl, _, rfl⟩

/-- C14 (witness): the successful run on the mock platform ends with the write
of `ACCESS_NEW`, then the write of `REFRESH_NEW`, then `Unlock`; and over the
cache that refuses the refresh token the run fails with `disk full` while the
cache already gives `ACCESS_NEW` next to the old refresh token `REFRESH_OLD`. -/
theorem NoticeAuthorizerAccessTokenExpire_write_order_witness :
    (∃ earlier a r,
      (NoticeAuthorizerAccessTokenExpire mockNewRequest mockUnmarshalAuthorizerToken mockNet
        mockPlatform "wxAUTHORIZER" (mockAuthorizedWorld [answerAuthorizerToken])).trace =
        earlier ++
          [Event.cacheSave ("authorizer_access_token:" ++ "wxAUTHORIZER") a 0,
           Event.cacheSave ("authorizer_refresh_token:" ++ "wxAUTHORIZER") r 0,
           Event.unlock Mutex.noticeAuthorizerAccessTokenExpireLock]) ∧
    (NoticeAuthorizerAccessTokenExpire mockNewRequest mockUnmarshalAuthorizerToken mockNet
      refreshRejectingPlatform "wxAUTHORIZER"
      (mockAuthorizedWorld [answerAuthorizerToken])).err = some (Error.Foreign "disk full") ∧
    (mockCache.Fetch "authorizer_access_token:wxAUTHORIZER"
      (NoticeAuthorizerAccessTokenExpire mockNewRequest mockUnmarshalAuthorizerToken mockNet
        refreshRejectingPlatform "wxAUTHORIZER"
        (mockAuthorizedWorld [answerAuthorizerToken])).state).1 = ("ACCESS_NEW", none) ∧
    (mockCache.Fetch "authorizer_refresh_token:wxAUTHORIZER"
      (NoticeAuthorizerAccessTokenExpire mockNewRequest mockUnmarshalAuthorizerToken mockNet
        refreshRejectingPlatform "wxAUTHORIZER"
        (mockAuthorizedWorld [answerAuthorizerToken])).state).1 = ("REFRESH_OLD", none) := by
  obtain ⟨earlier, a, r, _, htrace, _⟩ :=
    (NoticeAuthorizerAccessTokenExpire_write_order mockNewRequest mockUnmarshalAuthorizerToken
      mockNet mockPlatform "wxAUTHORIZER" (mockAuthorizedWorld [answerAuthorizerToken])).1
      (by decide)
  have hfail :=
    ((NoticeAuthorizerAccessTokenExpire_write_order mockNewRequest mockUnmarshalAuthorizerToken
      mockNet refreshRejectingPlatform "wxAUTHORIZER"
      (mockAuthorizedWorld [answerAuthorizerToken])).2 "REFRESH_OLD" _
      { authorizer_access_token := some "ACCESS_NEW", expires_in := some 7200,
        authorizer_refresh_token := some "REFRESH_NEW" }
      (Error.Foreign "disk full") _ _ rfl (by decide) rfl rfl rfl).1
  exact ⟨⟨earlier, a, r, htrace⟩, hfail, by decide, by decide⟩

/-- C14 (counterexample): in the successful run on the mock platform the new
access token is written first and the new refresh token second, not the other
way round. -/
theorem NoticeAuthorizerAccessTokenExpire_access_first :
    (NoticeAuthorizerAccessTokenExpire mockNewRequest mockUnmarshalAuthorizerToken mockNet
        mockPlatform "wxAUTHORIZER" (mockAuthorizedWorld [answerAuthorizerToken])).err = none ∧
      savesOf (NoticeAuthorizerAccessTokenExpire mockNewRequest mockUnmarshalAuthorizerToken
        mockNet mockPlatform "wxAUTHORIZER" (mockAuthorizedWorld [answerAuthorizerToken])).trace
        = [("authorizer_access_token:wxAUTHORIZER", "ACCESS_NEW", 0),
           ("authorizer_refresh_token:wxAUTHORIZER", "REFRESH_NEW", 0)] := by
  decide

/-- C15: when `NoticeAuthorizerAccessTokenExpire` returns nil after the remote
end answered with access token `a` and refresh token `r`, it has saved `a`
under `authorizer_access_token:<appid>` and `r` under
`authorizer_refresh_token:<appid>`, both with lifetime 0 (no expiry); and for a
cache that gives back what was saved under a key and is not disturbed by a save
under another key, `GetAuthorizerAccessToken` then returns `a` and fetching the
refresh-token key yields `r`. -/
theorem NoticeAuthorizerAccessTokenExpire_stores_tokens
    (NewRequest : String → String → Except Error Request)
    (Unmarshal : String → Except Error AuthorizerTokenMembers) (net : Net σ)
    (ctx : Platform σ) (appid : String) (s : σ) (m : AuthorizerTokenMembers) (a r : String)
    (hnil : (NoticeAuthorizerAccessTokenExpire NewRequest Unmarshal net ctx appid s).err = none)
    (hanswer : Unmarshal (Client.HTTPPost NewRequest net ctx
        "/cgi-bin/component/api_authorizer_token" "application/json;charset=utf-8"
        (ctx.Cache.Fetch ("authorizer_refresh_token:" ++ appid) s).2).resp = .ok m)
    (ha : m.authorizer_access_token = some a) (hr : m.authorizer_refresh_token = some r)
    (hsame : ∀ key value st, (ctx.Cache.Save key value 0 st).1 = none →
      (ctx.Cache.Fetch key (ctx.Cache.Save key value 0 st).2).1 = (value, none))
    (hother : ∀ key other value st, key ≠ other →
      (ctx.Cache.Fetch key (ctx.Cache.Save other value 0 st).2).1 = (ctx.Cache.Fetch key st).1) :
    savesOf (NoticeAuthorizerAccessTokenExpire NewRequest Unmarshal net ctx appid s).trace =
      [("authorizer_access_token:" ++ appid, a, 0),
       ("authorizer_refresh_token:" ++ appid, r, 0)] ∧
    (GetAuthorizerAccessToken ctx appid
      (NoticeAuthorizerAccessTokenExpire NewRequest Unmarshal net ctx appid s).state).1
      = (a, none) ∧
    (ctx.Cache.Fetch ("authorizer_refresh_token:" ++ appid)
      (NoticeAuthorizerAccessTokenExpire NewRequest Unmarshal net ctx appid s).state).1
      = (r, none) := by
  have hpost := savesOf_HTTPPost NewRequest net ctx "/cgi-bin/component/api_authorizer_token"
    "application/json;charset=utf-8"
  revert hnil hanswer
  unfold NoticeAuthorizerAccessTokenExpire GetAuthorizerAccessToken
  rcases hf : ctx.Cache.Fetch ("authorizer_refresh_token:" ++ appid) s with
    ⟨⟨old, _ | e⟩, s1⟩
  · simp only []
    rcases hpe : (Client.HTTPPost NewRequest net ctx "/cgi-bin/component/api_authorizer_token"
        "application/json;charset=utf-8" s1).err with _ | e2
    · simp only []
      intro hnil hanswer
      rw [hanswer] at hnil ⊢
      simp only [ha, hr, Option.getD_some] at hnil ⊢
      rcases hs1 : ctx.Cache.Save ("authorizer_access_token:" ++ appid) a 0
          (Client.HTTPPost NewRequest net ctx "/cgi-bin/component/api_authorizer_token"
            "application/json;charset=utf-8" s1).state with ⟨_ | e4, s3⟩
      · rw [hs1] at hnil
        simp only [] at hnil ⊢
        have hfirst := hsame ("authorizer_access_token:" ++ appid) a
          (Client.HTTPPost NewRequest net ctx "/cgi-bin/component/api_authorizer_token"
            "application/json;charset=utf-8" s1).state (by rw [hs1])
        rw [hs1] at hfirst
        have hsecond := hsame ("authorizer_refresh_token:" ++ appid) r s3 hnil
        have hkeep := hother ("authorizer_access_token:" ++ appid)
          ("authorizer_refresh_token:" ++ appid) r s3 (authorizer_keys_ne appid)
        refine ⟨?_, ?_, ?_⟩
        · rw [savesOf_append, savesOf_append, hpost]; rfl
        · rw [hkeep]; exact hfirst
        · exact hsecond
      · rw [hs1] at hnil
        simp at hnil
    · simp only []
      intro hnil
      simp at hnil
  · simp only []
    intro hnil
    simp at hnil

/-- The in-memory cache gives back what was saved under a key. -/
theorem mockCache_fetch_saved (key value : String) (lifeTime : Int) (w : MockWorld) :
    (mockCache.Fetch key (mockCache.Save key value lifeTime w).2).1 = (value, none) := by
  simp [mockCache, List.lookup]

/-- A save under another key does not disturb what the in-memory cache fetches. -/
theorem mockCache_fetch_other (key other value : String) (lifeTime : Int) (w : MockWorld)
    (h : key ≠ other) :
    (mockCache.Fetch key (mockCache.Save other value lifeTime w).2).1
      = (mockCache.Fetch key w).1 := by
  have hb : (key == other) = false := by simpa using h
  simp only [mockCache, List.lookup, hb]
  split <;> rfl

/-- C15 (witness): after the successful run on the mock platform the cache
gives the new tokens `ACCESS_NEW` and `REFRESH_NEW`. -/
theorem NoticeAuthorizerAccessTokenExpire_stores_tokens_witness :
    (GetAuthorizerAccessToken mockPlatform "wxAUTHORIZER"
        (NoticeAuthorizerAccessTokenExpire mockNewRequest mockUnmarshalAuthorizerToken mockNet
          mockPlatform "wxAUTHORIZER" (mockAuthorizedWorld [answerAuthorizerToken])).state).1
        = ("ACCESS_NEW", none) ∧
      (mockCache.Fetch "authorizer_refresh_token:wxAUTHORIZER"
        (NoticeAuthorizerAccessTokenExpire mockNewRequest mockUnmarshalAuthorizerToken mockNet
          mockPlatform "wxAUTHORIZER" (mockAuthorizedWorld [answerAuthorizerToken])).state).1
        = ("REFRESH_NEW", none) :=
  have h := NoticeAuthorizerAccessTokenExpire_stores_tokens mockNewRequest
    mockUnmarshalAuthorizerToken mockNet mockPlatform "wxAUTHORIZER"
    (mockAuthorizedWorld [answerAuthorizerToken])
    { authorizer_access_token := some "ACCESS_NEW", expires_in := some 7200,
      authorizer_refresh_token := some "REFRESH_NEW" } "ACCESS_NEW" "REFRESH_NEW"
    (by decide) rfl rfl rfl
    (fun key value st _ => mockCache_fetch_saved key value 0 st)
    (fun key other value st hne => mockCache_fetch_other key other value 0 st hne)
  ⟨h.2.1, h.2.2⟩

/-- C16: when fetching `authorizer_refresh_token:<appid>` fails,
`NoticeAuthorizerAccessTokenExpire` returns that error after this single cache
fetch: no token handler is called, no request is sent, nothing is saved. -/
theorem NoticeAuthorizerAccessTokenExpire_no_refresh_token
    (NewRequest : String → String → Except Error Request)
    (Unmarshal : String → Except Error AuthorizerTokenMembers) (net : Net σ)
    (ctx : Platform σ) (appid : String) (s s1 : σ) (t : String) (e : Error)
    (hfetch : ctx.Cache.Fetch ("authorizer_refresh_token:" ++ appid) s = ((t, some e), s1)) :
    (NoticeAuthorizerAccessTokenExpire NewRequest Unmarshal net ctx appid s).err = some e ∧
    (NoticeAuthorizerAccessTokenExpire NewRequest Unmarshal net ctx appid s).state = s1 ∧
    (NoticeAuthorizerAccessTokenExpire NewRequest Unmarshal net ctx appid s).trace =
      [Event.lock Mutex.noticeAuthorizerAccessTokenExpireLock,
       Event.cacheFetch ("authorizer_refresh_token:" ++ appid),
       Event.unlock Mutex.noticeAuthorizerAccessTokenExpireLock] ∧
    requestsOf (NoticeAuthorizerAccessTokenExpire NewRequest Unmarshal net ctx appid s).trace
      = [] ∧
    savesOf (NoticeAuthorizerAccessTokenExpire NewRequest Unmarshal net ctx appid s).trace
      = [] := by
  have hrun : NoticeAuthorizerAccessTokenExpire NewRequest Unmarshal net ctx appid s =
      { err := some e, state := s1,
        trace := [Event.lock Mutex.noticeAuthorizerAccessTokenExpireLock,
          Event.cacheFetch ("authorizer_refresh_token:" ++ appid),
          Event.unlock Mutex.noticeAuthorizerAccessTokenExpireLock] } := by
    simp [NoticeAuthorizerAccessTokenExpire, hfetch]
  rw [hrun]
  exact ⟨rfl, rfl, rfl, rfl, rfl⟩

/-- C16 (witness): for an account that was never authorized the mock run fails
on the cache fetch and sends nothing. -/
theorem NoticeAuthorizerAccessTokenExpire_no_refresh_token_witness :
    (NoticeAuthorizerAccessTokenExpire mockNewRequest mockUnmarshalAuthorizerToken mockNet
        mockPlatform "wxSTRANGER" (mockAuthorizedWorld [answerAuthorizerToken])).err
        = some (Error.Foreign "cache expired") ∧
      requestsOf (NoticeAuthorizerAccessTokenExpire mockNewRequest mockUnmarshalAuthorizerToken
        mockNet mockPlatform "wxSTRANGER" (mockAuthorizedWorld [answerAuthorizerToken])).trace
        = [] :=
  have h := NoticeAuthorizerAccessTokenExpire_no_refresh_token mockNewRequest
    mockUnmarshalAuthorizerToken mockNet mockPlatform "wxSTRANGER"
    (mockAuthorizedWorld [answerAuthorizerToken]) _ "" (Error.Foreign "cache expired") rfl
  ⟨h.1, h.2.2.2.1⟩

/-! ## Claims on the two mutexes -/

/-- No event of `GetComponentAccessToken` is an operation on the authorizer lock. -/
theorem GetComponentAccessToken_no_authorizer_lock (net : Net σ) (ctx : Platform σ) (s : σ) :
    Event.lock Mutex.noticeAuthorizerAccessTokenExpireLock
      ∉ (GetComponentAccessToken net ctx s).trace := by
  rcases hf1 : ctx.Cache.Fetch ctx.Config.AppId s with ⟨⟨t1, e1⟩, s1⟩
  by_cases ht1 : t1 = ""
  · subst ht1
    rcases hf2 : ctx.Cache.Fetch ctx.Config.AppId s1 with ⟨⟨t2, e2⟩, s2⟩
    by_cases ht2 : t2 = ""
    · subst ht2
      rcases hk : ctx.GetComponentVerifyTicketHandler s2 with ⟨⟨ticket, _ | e3⟩, s3⟩
      · obtain ⟨hrt, _⟩ := refreshComponentAccessToken_calls net ctx.Config.AppId
          ctx.Config.AppSecret ticket s3
        rcases hre : (refreshComponentAccessToken net ctx.Config.AppId ctx.Config.AppSecret
            ticket s3).err with _ | e4
        · simp [GetComponentAccessToken, hf1, hf2, hk, hre, hrt]
        · simp [GetComponentAccessToken, hf1, hf2, hk, hre, hrt]
      · simp [GetComponentAccessToken, hf1, hf2, hk]
    · simp [GetComponentAccessToken, hf1, hf2, ht2]
  · rw [GetComponentAccessToken_of_hit net ctx s s1 t1 e1 hf1 ht1]
    simp

/-- C17 (as amended): the authorizer lock is never taken while the component
lock is held, since no event of `GetComponentAccessToken` is an acquisition of
`noticeAuthorizerAccessTokenExpireLock`.  The other nesting does occur: once
its refresh token is fetched, `NoticeAuthorizerAccessTokenExpire` calls
`GetComponentAccessTokenHandler` (through `Client.HTTPPost`) after `Lock` and
before the only `Unlock` of `noticeAuthorizerAccessTokenExpireLock`, and a
`GetComponentAccessToken` whose first fetch finds no token goes on to `Lock`
`refreshComponentAccessTokenLock`. -/
theorem lock_nesting (NewRequest : String → String → Except Error Request)
    (Unmarshal : String → Except Error AuthorizerTokenMembers) (net : Net σ)
    (ctx : Platform σ) (appid : String) (s s1 : σ) (old : String)
    (hfetch : ctx.Cache.Fetch ("authorizer_refresh_token:" ++ appid) s = ((old, none), s1)) :
    (∀ st, Event.lock Mutex.noticeAuthorizerAccessTokenExpireLock
      ∉ (GetComponentAccessToken net ctx st).trace) ∧
    (∃ later,
      (NoticeAuthorizerAccessTokenExpire NewRequest Unmarshal net ctx appid s).trace =
        [Event.lock Mutex.noticeAuthorizerAccessTokenExpireLock,
         Event.cacheFetch ("authorizer_refresh_token:" ++ appid),
         Event.getComponentAccessToken] ++ later ++
        [Event.unlock Mutex.noticeAuthorizerAccessTokenExpireLock] ∧
      Event.unlock Mutex.noticeAuthorizerAccessTokenExpireLock ∉ later) ∧
    (∀ st st1 e, ctx.Cache.Fetch ctx.Config.AppId st = (("", e), st1) →
      ∃ later, (GetComponentAccessToken net ctx st).trace =
        [Event.cacheFetch ctx.Config.AppId,
         Event.lock Mutex.refreshComponentAccessTokenLock] ++ later) := by
  refine ⟨fun st => GetComponentAccessToken_no_authorizer_lock net ctx st, ?_, ?_⟩
  · obtain ⟨calls, hpt, hcalls⟩ := HTTPPost_events NewRequest net ctx
      "/cgi-bin/component/api_authorizer_token" "application/json;charset=utf-8" s1
    have hno : Event.unlock Mutex.noticeAuthorizerAccessTokenExpireLock ∉ calls := by
      intro hmem
      have := hcalls _ hmem
      simp [Event.isClientCall] at this
    unfold NoticeAuthorizerAccessTokenExpire
    rw [hfetch]
    simp only []
    split
    · exact ⟨calls, by rw [hpt]; simp, hno⟩
    · split
      · exact ⟨calls, by rw [hpt]; simp, hno⟩
      · split
        · rename_i m _ _ _ _ _
          refine ⟨calls ++ [Event.cacheSave ("authorizer_access_token:" ++ appid)
            (m.authorizer_access_token.getD "") 0], by rw [hpt]; simp, ?_⟩
          simp [hno]
        · rename_i m _ _ _ _
          refine ⟨calls ++ [Event.cacheSave ("authorizer_access_token:" ++ appid)
              (m.authorizer_access_token.getD "") 0,
            Event.cacheSave ("authorizer_refresh_token:" ++ appid)
              (m.authorizer_refresh_token.getD "") 0], by rw [hpt]; simp, ?_⟩
          simp [hno]
  · intro st st1 e hmiss
    rcases hf2 : ctx.Cache.Fetch ctx.Config.AppId st1 with ⟨⟨t2, e2⟩, s2⟩
    by_cases ht2 : t2 = ""
    · subst ht2
      rcases hk : ctx.GetComponentVerifyTicketHandler s2 with ⟨⟨ticket, _ | e3⟩, s3⟩
      · rcases hre : (refreshComponentAccessToken net ctx.Config.AppId ctx.Config.AppSecret
            ticket s3).err with _ | e4
        · exact ⟨_, by simp [GetComponentAccessToken, hmiss, hf2, hk, hre]; rfl⟩
        · exact ⟨_, by simp [GetComponentAccessToken, hmiss, hf2, hk, hre]; rfl⟩
      · exact ⟨_, by simp [GetComponentAccessToken, hmiss, hf2, hk]; rfl⟩
    · exact ⟨_, by simp [GetComponentAccessToken, hmiss, hf2, ht2]; rfl⟩

/-- C17 (witness): in the mock run the token handler is called between `Lock`
and `Unlock` of the authorizer lock. -/
theorem lock_nesting_witness :
    ∃ later,
      (NoticeAuthorizerAccessTokenExpire mockNewRequest mockUnmarshalAuthorizerToken mockNet
        mockPlatform "wxAUTHORIZER" (mockAuthorizedWorld [answerAuthorizerToken])).trace =
        [Event.lock Mutex.noticeAuthorizerAccessTokenExpireLock,
         Event.cacheFetch ("authorizer_refresh_token:" ++ "wxAUTHORIZER"),
         Event.getComponentAccessToken] ++ later ++
        [Event.unlock Mutex.noticeAuthorizerAccessTokenExpireLock] ∧
      Event.unlock Mutex.noticeAuthorizerAccessTokenExpireLock ∉ later :=
  (lock_nesting mockNewRequest mockUnmarshalAuthorizerToken mockNet mockPlatform
    "wxAUTHORIZER" (mockAuthorizedWorld [answerAuthorizerToken]) _ "REFRESH_OLD" rfl).2.1

/-- C17 (counterexample): on the mock platform with no component token cached,
`NoticeAuthorizerAccessTokenExpire` calls the token handler while it holds the
authorizer lock; that handler is `GetComponentAccessToken`, and run from the
state of the call it acquires `refreshComponentAccessTokenLock`. -/
theorem NoticeAuthorizerAccessTokenExpire_takes_component_lock :
    (NoticeAuthorizerAccessTokenExpire mockNewRequest mockUnmarshalAuthorizerToken mockNet
        mockPlatform "wxAUTHORIZER" (mockAuthorizedWorld [answerAuthorizerToken])).trace =
      [Event.lock Mutex.noticeAuthorizerAccessTokenExpireLock,
       Event.cacheFetch "authorizer_refresh_token:wxAUTHORIZER",
       Event.getComponentAccessToken,
       Event.httpDo
        { Method := "POST",
          URL := { Base := "https://api.weixin.qq.com/cgi-bin/component/api_authorizer_token" ++
                     "?component_access_token=ACCESS_TOKEN",
                   RawQuery := [] },
          Header := [("Content-Type", "application/json;charset=utf-8"),
                     ("User-Agent", "fastwego/wxopen")] },
       Event.cacheSave "authorizer_access_token:wxAUTHORIZER" "ACCESS_NEW" 0,
       Event.cacheSave "authorizer_refresh_token:wxAUTHORIZER" "REFRESH_NEW" 0,
       Event.unlock Mutex.noticeAuthorizerAccessTokenExpireLock] ∧
    (mockPlatform.GetComponentAccessTokenHandler = fun w =>
      (((GetComponentAccessToken mockNet mockBase w).resp,
        (GetComponentAccessToken mockNet mockBase w).err),
       (GetComponentAccessToken mockNet mockBase w).state)) ∧
    Event.lock Mutex.refreshComponentAccessTokenLock ∈
      (GetComponentAccessToken mockNet mockBase
        (mockCache.Fetch "authorizer_refresh_token:wxAUTHORIZER"
          (mockAuthorizedWorld [answerAuthorizerToken])).2).trace :=
  ⟨by decide, rfl, by decide⟩

/-! ## Claims on `Server.ParseXML` -/

/-- What lines 68-107 of `Server.ParseXML` return for a body that decodes to `doc`. -/
theorem classify_decoded (Unmarshal : String → Except Error XMLMembers) (body : String)
    (doc : XMLMembers) (hdoc : Unmarshal body = .ok doc) :
    Server.classify Unmarshal body =
      if doc.Text "InfoType" = "component_verify_ticket" then
        (Message.EventComponentVerifyTicket (xmlUnmarshalEventComponentVerifyTicket doc), none)
      else if doc.Text "InfoType" = "authorized" then
        (Message.EventAuthorized (xmlUnmarshalEventAuthorized doc), none)
      else if doc.Text "InfoType" = "unauthorized" then
        (Message.EventUnauthorized (xmlUnmarshalEventUnauthorized doc), none)
      else if doc.Text "InfoType" = "updateauthorized" then
        (Message.EventUpdateAuthorized (xmlUnmarshalEventUpdateAuthorized doc), none)
      else (Message.nil, none) := by
  simp only [Server.classify, hdoc, xmlUnmarshalEvent,
    type_platform.EventTypeComponentVerifyTicket, type_platform.EventTypeAuthorized,
    type_platform.EventTypeUnauthorized, type_platform.EventTypeUpdateAuthorized]

/-- Lines 68-107 of `Server.ParseXML` return an error only when the body does not decode. -/
theorem classify_error (Unmarshal : String → Except Error XMLMembers) (body : String)
    (h : (Server.classify Unmarshal body).2 ≠ none) : ∃ e, Unmarshal body = .error e := by
  rcases hdoc : Unmarshal body with e | doc
  · exact ⟨e, rfl⟩
  · exfalso
    apply h
    rw [classify_decoded Unmarshal body doc hdoc]
    split_ifs <;> rfl

/-- C19: for a plaintext body (no `Encrypt` text) that `xml.Unmarshal`
accepts, `Server.ParseXML` returns a nil error and, when `InfoType` is one of
`component_verify_ticket`, `authorized`, `unauthorized`, `updateauthorized`, a
value of the matching type whose `AppId`, `CreateTime`, `InfoType` and own
fields are the texts of the elements of those names; for a ticket push
`ComponentVerifyTicket` is the text of the element `ComponentVerifyTicket`.
The `XMLName` of the embedded `Event` is left at its zero value. -/
theorem ParseXML_known_event (Unmarshal : String → Except Error XMLMembers)
    (AESDecryptMsg : String → String → (String × String × String) × Option Error)
    (ctx : Platform σ) (body : String) (doc : XMLMembers)
    (hdoc : Unmarshal body = .ok doc) (hplain : doc.Text "Encrypt" = "") :
    (doc.Text "InfoType" = "component_verify_ticket" →
      Server.ParseXML Unmarshal AESDecryptMsg ctx body =
        (Message.EventComponentVerifyTicket
          { Event := { XMLName := { Space := "", Local := "" }, AppId := doc.Text "AppId",
                       CreateTime := doc.Text "CreateTime",
                       InfoType := "component_verify_ticket" },
            ComponentVerifyTicket := doc.Text "ComponentVerifyTicket" }, none)) ∧
    (doc.Text "InfoType" = "authorized" →
      Server.ParseXML Unmarshal AESDecryptMsg ctx body =
        (Message.EventAuthorized
          { Event := { XMLName := { Space := "", Local := "" }, AppId := doc.Text "AppId",
                       CreateTime := doc.Text "CreateTime", InfoType := "authorized" },
            AuthorizerAppid := doc.Text "AuthorizerAppid",
            AuthorizationCode := doc.Text "AuthorizationCode",
            AuthorizationCodeExpiredTime := doc.Text "AuthorizationCodeExpiredTime",
            PreAuthCode := doc.Text "PreAuthCode" }, none)) ∧
    (doc.Text "InfoType" = "unauthorized" →
      Server.ParseXML Unmarshal AESDecryptMsg ctx body =
        (Message.EventUnauthorized
          { Event := { XMLName := { Space := "", Local := "" }, AppId := doc.Text "AppId",
                       CreateTime := doc.Text "CreateTime", InfoType := "unauthorized" },
            AuthorizerAppid := doc.Text "AuthorizerAppid" }, none)) ∧
    (doc.Text "InfoType" = "updateauthorized" →
      Server.ParseXML Unmarshal AESDecryptMsg ctx body =
        (Message.EventUpdateAuthorized
          { Event := { XMLName := { Space := "", Local := "" }, AppId := doc.Text "AppId",
                       CreateTime := doc.Text "CreateTime", InfoType := "updateauthorized" },
            AuthorizerAppid := doc.Text "AuthorizerAppid",
            AuthorizationCode := doc.Text "AuthorizationCode",
            AuthorizationCodeExpiredTime := doc.Text "AuthorizationCodeExpiredTime",
            PreAuthCode := doc.Text "PreAuthCode" }, none)) := by
  have hparse : Server.ParseXML Unmarshal AESDecryptMsg ctx body
      = Server.classify Unmarshal body := by
    simp [Server.ParseXML, hdoc, hplain]
  rw [hparse, classify_decoded Unmarshal body doc hdoc]
  refine ⟨?_, ?_, ?_, ?_⟩ <;> intro hinfo <;>
    simp [xmlUnmarshalEmbeddedEvent, xmlUnmarshalEventComponentVerifyTicket,
      xmlUnmarshalEventAuthorized, xmlUnmarshalEventUnauthorized,
      xmlUnmarshalEventUpdateAuthorized, hinfo]

/-- C19 (witness): the ticket push of the comment in `type_platform.go` comes
back as an `EventComponentVerifyTicket` with the ticket `some_verify_ticket`. -/
theorem ParseXML_known_event_witness :
    Server.ParseXML mockXMLUnmarshal mockAESDecryptMsg mockPlatform ticketPushBody =
      (Message.EventComponentVerifyTicket
        { Event := { XMLName := { Space := "", Local := "" }, AppId := "some_appid",
                     CreateTime := "1413192605", InfoType := "component_verify_ticket" },
          ComponentVerifyTicket := "some_verify_ticket" }, none) := by
  have hdoc : mockXMLUnmarshal ticketPushBody =
      .ok (membersOf [("AppId", "some_appid"), ("CreateTime", "1413192605"),
        ("InfoType", "component_verify_ticket"),
        ("ComponentVerifyTicket", "some_verify_ticket")]) := by
    simp [mockXMLUnmarshal]
  have h := (ParseXML_known_event mockXMLUnmarshal mockAESDecryptMsg mockPlatform
    ticketPushBody _ hdoc (by decide)).1 (by decide)
  rw [h]
  decide

/-- C20 (as amended): for a callback body that `xml.Unmarshal` accepts,
plaintext or decrypted without error, whose `InfoType` is none of the four
known values, `Server.ParseXML` returns a nil error and a nil result: no event
value is built and no field of the body is kept. -/
theorem ParseXML_unknown_event (Unmarshal : String → Except Error XMLMembers)
    (AESDecryptMsg : String → String → (String × String × String) × Option Error)
    (ctx : Platform σ) (body inner : String) (env doc : XMLMembers)
    (henv : Unmarshal body = .ok env)
    (hinner : (env.Text "Encrypt" = "" ∧ inner = body) ∨
      (env.Text "Encrypt" ≠ "" ∧ ∃ random appId,
        AESDecryptMsg (env.Text "Encrypt") ctx.Config.AesKey = ((random, inner, appId), none)))
    (hdoc : Unmarshal inner = .ok doc)
    (hticket : doc.Text "InfoType" ≠ "component_verify_ticket")
    (hauthorized : doc.Text "InfoType" ≠ "authorized")
    (hunauthorized : doc.Text "InfoType" ≠ "unauthorized")
    (hupdate : doc.Text "InfoType" ≠ "updateauthorized") :
    Server.ParseXML Unmarshal AESDecryptMsg ctx body = (Message.nil, none) := by
  have hclass : Server.classify Unmarshal inner = (Message.nil, none) := by
    simp [Server.classify, hdoc, xmlUnmarshalEvent, hticket, hauthorized, hunauthorized,
      hupdate, type_platform.EventTypeComponentVerifyTicket, type_platform.EventTypeAuthorized,
      type_platform.EventTypeUnauthorized, type_platform.EventTypeUpdateAuthorized]
  rcases hinner with ⟨hplain, hsame⟩ | ⟨hcipher, random, appId, hdecrypt⟩
  · subst hsame
    simp [Server.ParseXML, henv, hplain, hclass]
  · simp [Server.ParseXML, henv, hcipher, hdecrypt, hclass]

/-- C20 (witness): the push `notify_third_fasteregister` gives a nil result and
a nil error. -/
theorem ParseXML_unknown_event_witness :
    Server.ParseXML mockXMLUnmarshal mockAESDecryptMsg mockPlatform fastRegisterBody
      = (Message.nil, none) := by
  have hdoc : mockXMLUnmarshal fastRegisterBody =
      .ok (membersOf [("AppId", "some_appid"), ("CreateTime", "1535442403"),
        ("InfoType", "notify_third_fasteregister")]) := by
    have hne : fastRegisterBody ≠ ticketPushBody := by decide
    simp [mockXMLUnmarshal, hne]
  exact ParseXML_unknown_event mockXMLUnmarshal mockAESDecryptMsg mockPlatform
    fastRegisterBody fastRegisterBody _ _ hdoc (Or.inl ⟨by decide, rfl⟩) hdoc
    (by decide) (by decide) (by decide) (by decide)

/-- C20 (counterexample): for the push `notify_third_fasteregister`, a body
with `AppId`, `CreateTime` and an `InfoType` the package does not know,
`Server.ParseXML` returns the nil result, not an event value carrying those fields. -/
theorem ParseXML_unknown_is_nil :
    (Server.ParseXML mockXMLUnmarshal mockAESDecryptMsg mockPlatform fastRegisterBody).1
      = Message.nil := by
  decide

/-- C21 (as amended): for an encrypted callback body that decrypts without
error, `Server.ParseXML` does not look at the recovered app id: whatever that
app id is, equal to `Config.AppId` or not, the result is the classification of
the decrypted XML.  So a decrypted XML with one of the four known `InfoType`
values comes back as the classified event with a nil error, and a non-nil
error is returned only when the decrypted XML does not decode. -/
theorem ParseXML_ignores_app_id (Unmarshal : String → Except Error XMLMembers)
    (AESDecryptMsg : String → String → (String × String × String) × Option Error)
    (ctx : Platform σ) (body random inner appId : String) (env : XMLMembers)
    (henv : Unmarshal body = .ok env) (hcipher : env.Text "Encrypt" ≠ "")
    (hdecrypt : AESDecryptMsg (env.Text "Encrypt") ctx.Config.AesKey
      = ((random, inner, appId), none)) :
    Server.ParseXML Unmarshal AESDecryptMsg ctx body = Server.classify Unmarshal inner ∧
    (∀ doc, Unmarshal inner = .ok doc →
      (doc.Text "InfoType" = "component_verify_ticket" →
        Server.ParseXML Unmarshal AESDecryptMsg ctx body =
          (Message.EventComponentVerifyTicket
            { Event := { XMLName := { Space := "", Local := "" }, AppId := doc.Text "AppId",
                         CreateTime := doc.Text "CreateTime",
                         InfoType := "component_verify_ticket" },
              ComponentVerifyTicket := doc.Text "ComponentVerifyTicket" }, none)) ∧
      (doc.Text "InfoType" = "authorized" →
        Server.ParseXML Unmarshal AESDecryptMsg ctx body =
          (Message.EventAuthorized
            { Event := { XMLName := { Space := "", Local := "" }, AppId := doc.Text "AppId",
                         CreateTime := doc.Text "CreateTime", InfoType := "authorized" },
              AuthorizerAppid := doc.Text "AuthorizerAppid",
              AuthorizationCode := doc.Text "AuthorizationCode",
              AuthorizationCodeExpiredTime := doc.Text "AuthorizationCodeExpiredTime",
              PreAuthCode := doc.Text "PreAuthCode" }, none)) ∧
      (doc.Text "InfoType" = "unauthorized" →
        Server.ParseXML Unmarshal AESDecryptMsg ctx body =
          (Message.EventUnauthorized
            { Event := { XMLName := { Space := "", Local := "" }, AppId := doc.Text "AppId",
                         CreateTime := doc.Text "CreateTime", InfoType := "unauthorized" },
              AuthorizerAppid := doc.Text "AuthorizerAppid" }, none)) ∧
      (doc.Text "InfoType" = "updateauthorized" →
        Server.ParseXML Unmarshal AESDecryptMsg ctx body =
          (Message.EventUpdateAuthorized
            { Event := { XMLName := { Space := "", Local := "" }, AppId := doc.Text "AppId",
                         CreateTime := doc.Text "CreateTime", InfoType := "updateauthorized" },
              AuthorizerAppid := doc.Text "AuthorizerAppid",
              AuthorizationCode := doc.Text "AuthorizationCode",
              AuthorizationCodeExpiredTime := doc.Text "AuthorizationCodeExpiredTime",
              PreAuthCode := doc.Text "PreAuthCode" }, none))) ∧
    ((Server.ParseXML Unmarshal AESDecryptMsg ctx body).2 ≠ none →
      ∃ e, Unmarshal inner = .error e) := by
  have hparse : Server.ParseXML Unmarshal AESDecryptMsg ctx body
      = Server.classify Unmarshal inner := by
    simp [Server.ParseXML, henv, hcipher, hdecrypt]
  refine ⟨hparse, ?_, ?_⟩
  · intro doc hdoc
    rw [hparse, classify_decoded Unmarshal inner doc hdoc]
    refine ⟨?_, ?_, ?_, ?_⟩ <;> intro hinfo <;>
      simp [xmlUnmarshalEmbeddedEvent, xmlUnmarshalEventComponentVerifyTicket,
        xmlUnmarshalEventAuthorized, xmlUnmarshalEventUnauthorized,
        xmlUnmarshalEventUpdateAuthorized, hinfo]
  · intro herr
    rw [hparse] at herr
    exact classify_error Unmarshal inner herr

/-- C21 (witness): the encrypted push of the foreign sender is classified like
the ticket push it contains. -/
theorem ParseXML_ignores_app_id_witness :
    Server.ParseXML mockXMLUnmarshalEnvelope mockAESDecryptForeign cryptoPlatform
        encryptedPushBody
      = Server.classify mockXMLUnmarshalEnvelope ticketPushBody := by
  have henv : mockXMLUnmarshalEnvelope encryptedPushBody =
      .ok (membersOf [("ToUserName", "gh_platform"), ("Encrypt", "CIPHERTEXT")]) := by
    simp [mockXMLUnmarshalEnvelope]
  exact (ParseXML_ignores_app_id mockXMLUnmarshalEnvelope mockAESDecryptForeign cryptoPlatform
    encryptedPushBody "0123456789abcdef" ticketPushBody "wxFOREIGN" _ henv (by decide) rfl).1

set_option maxRecDepth 4000 in
/-- C21 (counterexample): the ciphertext decrypts to a ticket push with the
recovered app id `wxFOREIGN`, which is not the configured `APPID`, and
`Server.ParseXML` returns the classified event with a nil error. -/
theorem ParseXML_accepts_foreign_app_id :
    (mockAESDecryptForeign "CIPHERTEXT" cryptoPlatform.Config.AesKey).1.2.2
        ≠ cryptoPlatform.Config.AppId ∧
      Server.ParseXML mockXMLUnmarshalEnvelope mockAESDecryptForeign cryptoPlatform
          encryptedPushBody =
        (Message.EventComponentVerifyTicket
          { Event := { XMLName := { Space := "", Local := "" }, AppId := "some_appid",
                       CreateTime := "1413192605", InfoType := "component_verify_ticket" },
            ComponentVerifyTicket := "some_verify_ticket" }, none) := by
  decide

/-! ## Claims on the replies -/

/-- Sorting forgets the order in which the strings were listed. -/
theorem sortStrings_perm (l1 l2 : List String) (h : l1.Perm l2) :
    sortStrings l1 = sortStrings l2 := by
  unfold sortStrings
  apply List.eq_of_perm_of_sorted (r := fun a b : String => a ≤ b)
  · exact (List.perm_insertionSort _ l1).trans (h.trans (List.perm_insertionSort _ l2).symm)
  · exact List.sorted_insertionSort _ l1
  · exact List.sorted_insertionSort _ l2

/-- The digit `hexDigit` prints for a value below sixteen is the one of the table. -/
theorem hexDigit_table : ∀ n, n < 16 → hexDigits[n]? = some (hexDigit n) := by
  decide

/-- What `hexEncode` prints: two characters per byte, the lower-case digit
of the high half and the one of the low half, in the order of the bytes. -/
theorem hexEncode_digits (bytes : List UInt8) :
    (hexEncode bytes).length = 2 * bytes.length ∧
      ∀ i b, bytes[i]? = some b →
        (hexEncode bytes).toList[2 * i]? = hexDigits[b.toNat / 16]? ∧
        (hexEncode bytes).toList[2 * i + 1]? = hexDigits[b.toNat % 16]? := by
  induction bytes with
  | nil => exact ⟨rfl, fun i b h => by simp at h⟩
  | cons c rest ih =>
    have hc : c.toNat < 256 := UInt8.toNat_lt c
    have hunfold : (hexEncode (c :: rest)).toList =
        hexDigit (c.toNat / 16) :: hexDigit (c.toNat % 16) :: (hexEncode rest).toList := by
      simp [hexEncode, List.flatMap_cons]
    have hlen : ∀ l : List UInt8, (hexEncode l).length = (hexEncode l).toList.length :=
      fun _ => rfl
    refine ⟨?_, ?_⟩
    · rw [hlen, hunfold]
      simp only [List.length_cons]
      rw [← hlen, ih.1]
      omega
    · intro i b hb
      rw [hunfold]
      cases i with
      | zero =>
        simp only [List.getElem?_cons_zero, Option.some.injEq] at hb
        subst hb
        refine ⟨?_, ?_⟩
        · simp only [Nat.mul_zero, List.getElem?_cons_zero]
          exact (hexDigit_table _ (by omega)).symm
        · simp only [Nat.mul_zero, Nat.zero_add, List.getElem?_cons_succ,
            List.getElem?_cons_zero]
          exact (hexDigit_table _ (by omega)).symm
      | succ j =>
        simp only [List.getElem?_cons_succ] at hb
        have h2 : 2 * (j + 1) = 2 * j + 1 + 1 := by omega
        rw [h2]
        simp only [List.getElem?_cons_succ]
        exact ih.2 j b hb

/-- C22: the envelope returned by `Server.encryptReplyMessage` has `Encrypt`
equal to the ciphertext of `AESEncryptMsg`, `TimeStamp` the decimal timestamp
and `Nonce` the nonce.  Its `MsgSignature` is the lower-case hexadecimal
print, two digits per byte, of the SHA-1 digest of the concatenation of a list
that is sorted increasingly and is a rearrangement of its own `TimeStamp`,
`Nonce` and `Encrypt` and of `Config.Token`; and a verifier that lists these
four strings in any order and signs them the same way obtains `MsgSignature`. -/
theorem encryptReplyMessage_signature
    (AESEncryptMsg : String → String → String → String → String)
    (SHA1 : String → List UInt8) (ctx : Platform σ) (random16 : String) (now : Int)
    (nonce rawXmlMsg : String) :
    (Server.encryptReplyMessage AESEncryptMsg SHA1 ctx random16 now nonce rawXmlMsg).Encrypt
      = AESEncryptMsg random16 rawXmlMsg ctx.Config.AppId ctx.Config.AesKey ∧
    (Server.encryptReplyMessage AESEncryptMsg SHA1 ctx random16 now nonce rawXmlMsg).TimeStamp
      = strconv.FormatInt now ∧
    (Server.encryptReplyMessage AESEncryptMsg SHA1 ctx random16 now nonce rawXmlMsg).Nonce
      = nonce ∧
    (∃ sorted : List String, ∃ digest : List UInt8,
      sorted.Perm
        [(Server.encryptReplyMessage AESEncryptMsg SHA1 ctx random16 now nonce
            rawXmlMsg).TimeStamp,
         (Server.encryptReplyMessage AESEncryptMsg SHA1 ctx random16 now nonce rawXmlMsg).Nonce,
         ctx.Config.Token,
         (Server.encryptReplyMessage AESEncryptMsg SHA1 ctx random16 now nonce
            rawXmlMsg).Encrypt] ∧
      List.Sorted (fun a b : String => a ≤ b) sorted ∧
      digest = SHA1 (String.join sorted) ∧
      (Server.encryptReplyMessage AESEncryptMsg SHA1 ctx random16 now nonce
        rawXmlMsg).MsgSignature.length = 2 * digest.length ∧
      ∀ i b, digest[i]? = some b →
        (Server.encryptReplyMessage AESEncryptMsg SHA1 ctx random16 now nonce
          rawXmlMsg).MsgSignature.toList[2 * i]? = hexDigits[b.toNat / 16]? ∧
        (Server.encryptReplyMessage AESEncryptMsg SHA1 ctx random16 now nonce
          rawXmlMsg).MsgSignature.toList[2 * i + 1]? = hexDigits[b.toNat % 16]?) ∧
    ∀ listed : List String,
      listed.Perm
        [(Server.encryptReplyMessage AESEncryptMsg SHA1 ctx random16 now nonce
            rawXmlMsg).TimeStamp,
         (Server.encryptReplyMessage AESEncryptMsg SHA1 ctx random16 now nonce rawXmlMsg).Nonce,
         ctx.Config.Token,
         (Server.encryptReplyMessage AESEncryptMsg SHA1 ctx random16 now nonce
            rawXmlMsg).Encrypt] →
      Server.signature SHA1 listed =
        (Server.encryptReplyMessage AESEncryptMsg SHA1 ctx random16 now nonce
          rawXmlMsg).MsgSignature := by
  refine ⟨rfl, rfl, rfl, ?_, ?_⟩
  · refine ⟨sortStrings [strconv.FormatInt now, nonce, ctx.Config.Token,
        AESEncryptMsg random16 rawXmlMsg ctx.Config.AppId ctx.Config.AesKey], _,
      List.perm_insertionSort _ _, List.sorted_insertionSort _ _, rfl, ?_, ?_⟩
    · exact (hexEncode_digits _).1
    · exact (hexEncode_digits _).2
  · intro listed hperm
    unfold Server.signature
    rw [sortStrings_perm _ _ hperm]
    rfl

/-- C22 (witness): for the clock value 1409735669 and the nonce `xxxxxx` the
envelope carries `1409735669` and `xxxxxx`, and its signature is the one a
verifier recomputes from token, timestamp, nonce and ciphertext listed in
that order. -/
theorem encryptReplyMessage_signature_witness :
    (Server.encryptReplyMessage mockAESEncryptMsg mockDigest cryptoPlatform "0123456789abcdef"
        1409735669 "xxxxxx" "<xml></xml>").TimeStamp = "1409735669" ∧
      (Server.encryptReplyMessage mockAESEncryptMsg mockDigest cryptoPlatform
        "0123456789abcdef" 1409735669 "xxxxxx" "<xml></xml>").Nonce = "xxxxxx" ∧
      Server.signature mockDigest
        [cryptoPlatform.Config.Token,
         (Server.encryptReplyMessage mockAESEncryptMsg mockDigest cryptoPlatform
           "0123456789abcdef" 1409735669 "xxxxxx" "<xml></xml>").TimeStamp,
         (Server.encryptReplyMessage mockAESEncryptMsg mockDigest cryptoPlatform
           "0123456789abcdef" 1409735669 "xxxxxx" "<xml></xml>").Nonce,
         (Server.encryptReplyMessage mockAESEncryptMsg mockDigest cryptoPlatform
           "0123456789abcdef" 1409735669 "xxxxxx" "<xml></xml>").Encrypt] =
        (Server.encryptReplyMessage mockAESEncryptMsg mockDigest cryptoPlatform
          "0123456789abcdef" 1409735669 "xxxxxx" "<xml></xml>").MsgSignature := by
  have h := encryptReplyMessage_signature mockAESEncryptMsg mockDigest cryptoPlatform
    "0123456789abcdef" 1409735669 "xxxxxx" "<xml></xml>"
  refine ⟨?_, h.2.2.1, h.2.2.2.2 _ ?_⟩
  · rw [h.2.1]; decide
  · exact (List.Perm.swap _ _ _).trans ((List.Perm.swap _ _ _).cons _)

/-- C23: the signature of `Server.encryptReplyMessage` (sort, join, SHA-1,
hexadecimal) does not depend on the order in which the strings are listed
before sorting: two lists that are permutations of each other, in particular
two listings of the same four strings, give the same signature. -/
theorem signature_order_independent (SHA1 : String → List UInt8) (l1 l2 : List String)
    (h : l1.Perm l2) : Server.signature SHA1 l1 = Server.signature SHA1 l2 := by
  unfold Server.signature
  rw [sortStrings_perm l1 l2 h]

/-- C23 (witness): listing token, timestamp, nonce, ciphertext gives the
signature of listing timestamp, nonce, token, ciphertext. -/
theorem signature_order_independent_witness :
    Server.signature mockDigest ["TOKEN", "1409735669", "xxxxxx", "CIPHERTEXT"] =
      Server.signature mockDigest ["1409735669", "xxxxxx", "TOKEN", "CIPHERTEXT"] :=
  signature_order_independent mockDigest _ _ (by decide)

/-- C24: `Server.Response` hands exactly the bytes `success` to
`writer.Write` when `reply` is nil, whatever the request is; and when `reply`
is not nil, has the XML serialization `xml` and the query parameter
`encrypt_type` is not `aes`, it hands exactly `xml` to `writer.Write`, with no
envelope around it.  In both cases the result is the error of that `Write`. -/
theorem Response_plain {ρ : Type} (Marshal : ρ → Except Error String)
    (MarshalEnvelope : ReplyEncryptMessage → Except Error String)
    (AESEncryptMsg : String → String → String → String → String)
    (SHA1 : String → List UInt8) (ctx : Platform σ) (random16 : String) (now : Int)
    (nonce : String) (Write : String → σ → Option Error × σ) (request : Request)
    (r : ρ) (xml : String) (s : σ)
    (hmarshal : Marshal r = .ok xml)
    (hplain : request.URL.Query.Get "encrypt_type" ≠ "aes") :
    (∀ anyRequest : Request,
      (Server.Response Marshal MarshalEnvelope AESEncryptMsg SHA1 ctx random16 now nonce Write
        anyRequest none s).written = ["success"] ∧
      (Server.Response Marshal MarshalEnvelope AESEncryptMsg SHA1 ctx random16 now nonce Write
        anyRequest none s).err = (Write "success" s).1) ∧
    (Server.Response Marshal MarshalEnvelope AESEncryptMsg SHA1 ctx random16 now nonce Write
      request (some r) s).written = [xml] ∧
    (Server.Response Marshal MarshalEnvelope AESEncryptMsg SHA1 ctx random16 now nonce Write
      request (some r) s).err = (Write xml s).1 := by
  refine ⟨fun _ => ⟨rfl, rfl⟩, ?_, ?_⟩
  · simp [Server.Response, hmarshal, hplain]
  · simp [Server.Response, hmarshal, hplain]

/-- C24 (witness): a reply to a request without `encrypt_type` is written as
its XML serialization, and no reply to a request with `encrypt_type=aes` is
written as `success`. -/
theorem Response_plain_witness :
    (Server.Response mockMarshal mockMarshalEnvelope mockAESEncryptMsg mockDigest mockPlatform
        "0123456789abcdef" 1409735669 "xxxxxx" mockWrite aesRequest none
        (mockWorld [])).written = ["success"] ∧
      (Server.Response mockMarshal mockMarshalEnvelope mockAESEncryptMsg mockDigest mockPlatform
        "0123456789abcdef" 1409735669 "xxxxxx" mockWrite mockRequest (some "hi")
        (mockWorld [])).written = ["<xml><Content>hi</Content></xml>"] :=
  have h := Response_plain mockMarshal mockMarshalEnvelope mockAESEncryptMsg mockDigest
    mockPlatform "0123456789abcdef" 1409735669 "xxxxxx" mockWrite mockRequest "hi"
    "<xml><Content>hi</Content></xml>" (mockWorld [])
    (congrArg Except.ok (by decide)) (by decide)
  ⟨(h.1 aesRequest).1, h.2.1⟩

/-! ## Claims on the errors of `GetComponentAccessToken` -/

/-- A run that misses the cache twice, reads a ticket and refreshes without
error: the result never depends on what `Save` returns. -/
theorem GetComponentAccessToken_of_refresh (net : Net σ) (ctx : Platform σ)
    (s s1 s2 s3 : σ) (e1 e2 : Option Error) (ticket : String)
    (hfetch1 : ctx.Cache.Fetch ctx.Config.AppId s = (("", e1), s1))
    (hfetch2 : ctx.Cache.Fetch ctx.Config.AppId s1 = (("", e2), s2))
    (hticket : ctx.GetComponentVerifyTicketHandler s2 = ((ticket, none), s3))
    (hrefresh : (refreshComponentAccessToken net ctx.Config.AppId ctx.Config.AppSecret
      ticket s3).err = none) :
    (GetComponentAccessToken net ctx s).resp =
        (refreshComponentAccessToken net ctx.Config.AppId ctx.Config.AppSecret
          ticket s3).accessToken ∧
      (GetComponentAccessToken net ctx s).err = none ∧
      (GetComponentAccessToken net ctx s).state =
        (ctx.Cache.Save ctx.Config.AppId
          (refreshComponentAccessToken net ctx.Config.AppId ctx.Config.AppSecret
            ticket s3).accessToken
          (wrapInt64 (wrapInt64 (refreshComponentAccessToken net ctx.Config.AppId
            ctx.Config.AppSecret ticket s3).expiresIn * timeSecond))
          (refreshComponentAccessToken net ctx.Config.AppId ctx.Config.AppSecret
            ticket s3).state).2 := by
  simp [GetComponentAccessToken, hfetch1, hfetch2, hticket, hrefresh]

/-- C25 (as amended): after two cache misses, the error of the ticket handler
and the error of the refresh are returned to the caller, but the error of the
cache `Save` is not: when the refresh succeeds and `Save` of the new token
fails, `GetComponentAccessToken` returns the new token with a nil error. -/
theorem GetComponentAccessToken_save_error_discarded (net : Net σ) (ctx : Platform σ)
    (s s1 s2 : σ) (e1 e2 : Option Error)
    (hfetch1 : ctx.Cache.Fetch ctx.Config.AppId s = (("", e1), s1))
    (hfetch2 : ctx.Cache.Fetch ctx.Config.AppId s1 = (("", e2), s2)) :
    (∀ ticket e s3, ctx.GetComponentVerifyTicketHandler s2 = ((ticket, some e), s3) →
      (GetComponentAccessToken net ctx s).err = some e) ∧
    (∀ ticket s3 e, ctx.GetComponentVerifyTicketHandler s2 = ((ticket, none), s3) →
      (refreshComponentAccessToken net ctx.Config.AppId ctx.Config.AppSecret ticket s3).err
        = some e →
      (GetComponentAccessToken net ctx s).err = some e) ∧
    (∀ ticket s3 e s5, ctx.GetComponentVerifyTicketHandler s2 = ((ticket, none), s3) →
      (refreshComponentAccessToken net ctx.Config.AppId ctx.Config.AppSecret ticket s3).err
        = none →
      ctx.Cache.Save ctx.Config.AppId
        (refreshComponentAccessToken net ctx.Config.AppId ctx.Config.AppSecret
          ticket s3).accessToken
        (wrapInt64 (wrapInt64 (refreshComponentAccessToken net ctx.Config.AppId
          ctx.Config.AppSecret ticket s3).expiresIn * timeSecond))
        (refreshComponentAccessToken net ctx.Config.AppId ctx.Config.AppSecret
          ticket s3).state = (some e, s5) →
      (GetComponentAccessToken net ctx s).err = none ∧
      (GetComponentAccessToken net ctx s).resp =
        (refreshComponentAccessToken net ctx.Config.AppId ctx.Config.AppSecret
          ticket s3).accessToken ∧
      (GetComponentAccessToken net ctx s).state = s5) := by
  refine ⟨?_, ?_, ?_⟩
  · intro ticket e s3 hk
    simp [GetComponentAccessToken, hfetch1, hfetch2, hk]
  · intro ticket s3 e hk hre
    simp [GetComponentAccessToken, hfetch1, hfetch2, hk, hre]
  · intro ticket s3 e s5 hk hre hsave
    obtain ⟨hresp, herr, hstate⟩ :=
      GetComponentAccessToken_of_refresh net ctx s s1 s2 s3 e1 e2 ticket hfetch1 hfetch2 hk hre
    refine ⟨herr, hresp, ?_⟩
    rw [hstate, hsave]

/-- C25 (witness): over the cache whose `Save` fails, the refreshed token
comes back with a nil error. -/
theorem GetComponentAccessToken_save_error_discarded_witness :
    (GetComponentAccessToken mockNet readOnlyPlatform (mockWorld [])).err = none ∧
      (GetComponentAccessToken mockNet readOnlyPlatform (mockWorld [])).resp = "ACCESS_TOKEN" :=
  have h := (GetComponentAccessToken_save_error_discarded mockNet readOnlyPlatform
    (mockWorld []) _ _ _ _ rfl rfl).2.2 "TICKET" _ (Error.Foreign "permission denied") _
    rfl rfl rfl
  ⟨h.1, h.2.1⟩

/-- C25 (counterexample): the refresh succeeds, the cache `Save` of the new
token fails with `permission denied`, and `GetComponentAccessToken` returns a
nil error. -/
theorem GetComponentAccessToken_swallows_save_error :
    savesOf (GetComponentAccessToken mockNet readOnlyPlatform (mockWorld [])).trace
        = [("APPID", "ACCESS_TOKEN", 7200 * timeSecond)] ∧
      (readOnlyPlatform.Cache.Save "APPID" "ACCESS_TOKEN" (7200 * timeSecond)
        (mockWorld [])).1 = some (Error.Foreign "permission denied") ∧
      (GetComponentAccessToken mockNet readOnlyPlatform (mockWorld [])).err = none := by
  decide

end Wxopen
